import Mathlib

/-!
# MomentMap hub (`server0211.js`): session registry, bubble store, dispatcher

Shallow embedding of the in-memory core of `server0211.js`.

* JavaScript `Map`s are insertion-ordered association lists (`JSMap`).
* JavaScript numbers are the elements of an ordered field `α` with a floor
  function (`ℚ` for executable runs, `ℝ` for the haversine formula); a missing
  numeric field (`undefined`, which arithmetic turns into `NaN`) is `none`.
* `Date.now()`, `Math.random()` and `new Date().toISOString()` are read from an
  `Env` record that accompanies every event.
* `ws.send` and `ws.close` calls are returned as a list of `Effect`s, in call
  order.  Console output and the backup file are outside the embedded state.
* An uncaught exception inside a handler is the result `none`.
* `handle` is the code run for one connection (message handler, database
  callbacks, close handler); `step` adds the timer and the HTTP endpoint, and
  `run` chains steps from a state.
-/

namespace MomentMap

/-- A WebSocket object (`ws`), identified by a number. -/
abbrev Conn := Nat

/-! ## JavaScript `Map` -/

namespace JSMap

variable {κ β : Type} [DecidableEq κ]

/-- The method `Map.prototype.get`: `none` is `undefined`. -/
def get : List (κ × β) → κ → Option β
  | [], _ => none
  | (k1, v) :: t, k => if k1 = k then some v else get t k

/-- The method `Map.prototype.has`. -/
def has (m : List (κ × β)) (k : κ) : Bool := (get m k).isSome

/-- The method `Map.prototype.set`: an existing key keeps its position, a new key is
appended. -/
def set : List (κ × β) → κ → β → List (κ × β)
  | [], k, v => [(k, v)]
  | (k1, v1) :: t, k, v => if k1 = k then (k, v) :: t else (k1, v1) :: set t k v

/-- The method `Map.prototype.delete`. -/
def delete (m : List (κ × β)) (k : κ) : List (κ × β) :=
  m.filter (fun e => decide (e.1 ≠ k))

end JSMap

/-! ## Data model -/

/-- The `user` object built by the two login handlers. -/
structure User (α : Type) where
  id : String
  nickname : String
  phone : Option String
  avatar : String
  lat : Option α
  lng : Option α
  deriving DecidableEq

/-- A `user` object together with its identity: the same JavaScript object is
stored in `socketUser` and in `onlineUsers`, and `oid` tells the aliases apart
from equal-looking objects of other logins. -/
structure UserObj (α : Type) where
  oid : Nat
  val : User α
  deriving DecidableEq

/-- A value `{ user, ws }` of `onlineUsers`. -/
structure Session (α : Type) where
  user : UserObj α
  ws : Conn
  deriving DecidableEq

/-- A bubble record as built by the `publishBubble` handler. -/
structure Bubble (α : Type) where
  id : String
  author : String
  authorId : String
  avatar : String
  bubbleType : String
  roomCode : Option String
  title : Option String
  content : String
  lat : Option α
  lng : Option α
  activityTags : List String
  createdAt : α
  expiresAt : α
  deriving DecidableEq

/-- The `stats` object. -/
structure Stats where
  totalPublished : Nat
  totalQueried : Nat
  totalMessages : Nat
  lastCleared : Option String
  clearedBy : Option String
  deriving DecidableEq

/-- An element of the `results` array of the `queryBubbles` handler:
`{ ...bubble, distance: Math.round(dist) }`. -/
structure QueryHit (α : Type) where
  bubble : Bubble α
  distance : ℤ
  deriving DecidableEq

/-- A row of the `users` table as the auth callbacks return it. -/
structure DbUser where
  id : String
  phone : String
  username : String
  avatar : String
  deriving DecidableEq

/-- The argument `result` of the `loginUser` callback. -/
inductive AuthResult where
  | success (user : DbUser) (message : String)
  | failure (message : String)
  deriving DecidableEq

/-- The `stats` payload of the `getStats` admin reply. -/
structure StatsReport where
  bubbleCount : Nat
  onlineUsers : Nat
  totalPublished : Nat
  totalQueried : Nat
  totalMessages : Nat
  lastCleared : Option String
  clearedBy : Option String
  deriving DecidableEq

/-- Outbound frames, one constructor per `type` string (the two shapes of
`adminResponse` are kept apart). -/
inductive Frame (α : Type) where
  | pong
  | registerResponse (success : Bool) (message : String) (user : Option DbUser)
  | loginSuccess (user : User α) (message : Option String)
  | loginFailed (message : String)
  | userJoined (userId nickname avatar : String)
  | onlineCount (count : Nat)
  | adminResponse (success : Bool) (message : String) (clearedCount : Option Nat)
      (timestamp : Option String)
  | adminStats (success : Bool) (stats : StatsReport)
  | clearBubblesResponse (success : Bool) (message : String) (clearedCount : Option Nat)
  | userPosition (userId nickname avatar : String) (lat lng : α)
  | publicChat (sender fromId avatar : String) (msg : Option String) (time : α)
  | chatroomMsg (sender fromId avatar : String) (msg roomCode : Option String) (time : α)
  | privateChat (sender fromId : String) (toId : Option String) (avatar : String)
      (msg : Option String) (time : α)
  | newBubble (bubble : Bubble α)
  | publishSuccess (bubbleId : String)
  | queryResult (bubbles : List (QueryHit α))
  | bubblesCleared (message : String) (clearedCount : Nat) (timestamp : α)
  | userLeft (userId nickname : String)
  deriving DecidableEq

/-- Calls made on WebSocket objects. -/
inductive Effect (α : Type) where
  | send (ws : Conn) (data : Frame α)
  | close (ws : Conn)
  deriving DecidableEq

/-- What a connection delivers to its handlers: a decoded message (by `data.type`),
the completion of one of the two database callbacks, or the `close` event. -/
inductive Event (α : Type) where
  | ping
  | register (success : Bool) (message : String) (user : Option DbUser)
  | authLogin (result : AuthResult)
  | adminCommand (password command : Option String)
  | clearBubbles (clearAll : Bool)
  | login (userId nickname phone avatar : Option String)
  | position (lat lng : Option α)
  | publicChat (msg : Option String)
  | chatroomMsg (msg roomCode : Option String)
  | privateChat (toId msg : Option String)
  | publishBubble (bubbleType roomCode title content : Option String) (lat lng : Option α)
      (activityTags : Option (List String)) (duration : Option α)
  | queryBubbles (lat lng radius : Option α)
  | other
  | close
  deriving DecidableEq

/-- Readings of the clock and of the random generator taken while one event is
handled: `now` is the first `Date.now()` of the handler, `now2` its second one
(`publishBubble` reads the clock for `createdAt` and again for `expiresAt`), `iso`
is `new Date().toISOString()`, `randId` the string cut from `Math.random()` and
`randNick` the value of `Math.floor(Math.random() * 10000)`. -/
structure Env (α : Type) where
  now : α
  now2 : α
  iso : String
  randId : String
  randNick : Nat

/-- The module-level state: the four maps, `stats`, the connections whose
`readyState` is no longer `OPEN`, and the next object identity. -/
structure State (α : Type) where
  bubbles : List (String × Bubble α)
  onlineUsers : List (String × Session α)
  socketUser : List (Conn × UserObj α)
  userSocket : List (String × Conn)
  stats : Stats
  notOpen : List Conn
  nextOid : Nat
  deriving DecidableEq

/-- The value `clearAllBubbles` returns. -/
structure ClearResult where
  success : Bool
  clearedCount : Nat
  message : String
  timestamp : String
  deriving DecidableEq

/-- The constant `ADMIN_PASSWORD`. -/
def ADMIN_PASSWORD : String := "admin123"

/-- The expression `x || d` for a string field. -/
def strOr (x : Option String) (d : String) : String :=
  match x with
  | some v => if v = "" then d else v
  | none => d

section Core

variable {α : Type} [LinearOrderedField α] [FloorRing α]

/-- The expression `x || d` for a numeric field. -/
def numOr (x : Option α) (d : α) : α :=
  match x with
  | some v => if v = 0 then d else v
  | none => d

/-- The function `Math.round`: the nearest integer, a half rounding up. -/
def mathRound (x : α) : ℤ := ⌊x + 1 / 2⌋

/-- The state at start-up, before `loadBackup`. -/
def State.init : State α :=
  { bubbles := [], onlineUsers := [], socketUser := [], userSocket := [],
    stats := ⟨0, 0, 0, none, none⟩, notOpen := [], nextOid := 0 }

/-- The function `loadBackup`: bubbles of the backup file that have not expired are put in
the store. -/
def loadBackup (s : State α) (data : List (Bubble α)) (now : α) : State α :=
  let restored := data.foldl
    (fun m bubble => if bubble.expiresAt > now then JSMap.set m bubble.id bubble else m)
    s.bubbles
  { s with bubbles := restored }

/-- The test `ws.readyState === WebSocket.OPEN`. -/
def isOpen (s : State α) (ws : Conn) : Bool := decide (ws ∉ s.notOpen)

/-- The function `broadcast(data)`: one `send` per session of `onlineUsers` whose
socket is open, in the order of the map. -/
def broadcast (s : State α) (data : Frame α) : List (Effect α) :=
  (s.onlineUsers.filter (fun e => isOpen s e.2.ws)).map (fun e => Effect.send e.2.ws data)

/-- The function `clearAllBubbles(initiator)`; its `try` block has no statement
that throws in this embedding, so the result is always the success object. -/
def clearAllBubbles (s : State α) (initiator : String) (env : Env α) :
    State α × List (Effect α) × ClearResult :=
  let bubbleCount := s.bubbles.length
  let s1 : State α :=
    { s with stats := { s.stats with lastCleared := some env.iso, clearedBy := some initiator } }
  let s2 : State α := { s1 with bubbles := [] }
  let effs := broadcast s2
    (Frame.bubblesCleared ("所有气泡已被 " ++ initiator ++ " 清除") bubbleCount env.now)
  (s2, effs,
    { success := true, clearedCount := bubbleCount,
      message := "已成功清除 " ++ toString bubbleCount ++ " 个气泡", timestamp := env.iso })

/-- The registry update shared verbatim by the `login` and `authLogin` handlers:
when `userSocket.has(user.id)`, call `close()` on `userSocket.get(user.id)` (a
failure of the call is caught and ignored; the socket leaves `OPEN`), then set
the three maps. -/
def installSession (s : State α) (ws : Conn) (user : User α) : State α × List (Effect α) :=
  let obj : UserObj α := { oid := s.nextOid, val := user }
  let closed : List Conn × List (Effect α) :=
    match JSMap.get s.userSocket user.id with
    | some old => (old :: s.notOpen, [Effect.close old])
    | none => (s.notOpen, [])
  ({ s with
      socketUser := JSMap.set s.socketUser ws obj
      userSocket := JSMap.set s.userSocket user.id ws
      onlineUsers := JSMap.set s.onlineUsers user.id { user := obj, ws := ws }
      notOpen := closed.1
      nextOid := s.nextOid + 1 },
    closed.2)

/-- The distance expression of the `queryBubbles` loop: `none` is `NaN`, which
arises when a coordinate is `undefined`. -/
def jsDistance (calcDist : α → α → α → α → α) (lat1 lng1 lat2 lng2 : Option α) : Option α :=
  match lat1, lng1, lat2, lng2 with
  | some a, some b, some c, some d => some (calcDist a b c d)
  | _, _, _, _ => none

/-- One pass of the `bubbles.forEach` callback of the `queryBubbles` handler on
the entry `e`: the element pushed on `results`, if any. -/
def queryHit (calcDist : α → α → α → α → α) (lat lng radius : Option α) (now : α)
    (e : String × Bubble α) : Option (QueryHit α) :=
  if e.2.expiresAt < now then none
  else
    match jsDistance calcDist lat lng e.2.lat e.2.lng with
    | none => none
    | some dist =>
      if dist ≤ numOr radius 5000 then
        some { bubble := e.2, distance := mathRound dist }
      else none

/-- The `bubbles.forEach` loop of the `queryBubbles` handler: the array `results`
before it is sorted. -/
def queryFilter (calcDist : α → α → α → α → α) (bubbles : List (String × Bubble α))
    (lat lng radius : Option α) (now : α) : List (QueryHit α) :=
  bubbles.filterMap (queryHit calcDist lat lng radius now)

/-- The array `results` after `results.sort((a, b) => a.distance - b.distance)`:
`Array.prototype.sort` is stable, so with this comparator it is the stable
sort by `distance`. -/
def queryResults (calcDist : α → α → α → α → α) (bubbles : List (String × Bubble α))
    (lat lng radius : Option α) (now : α) : List (QueryHit α) :=
  (queryFilter calcDist bubbles lat lng radius now).insertionSort
    (fun a b => a.distance ≤ b.distance)

/-- The assignment `user.lat = ...; user.lng = ...` on the object `oid`, seen
through every map that holds the object. -/
def setPosition (s : State α) (oid : Nat) (lat lng : Option α) : State α :=
  { s with
    socketUser := s.socketUser.map (fun e =>
      if e.2.oid = oid then (e.1, { e.2 with val := { e.2.val with lat := lat, lng := lng } })
      else e)
    onlineUsers := s.onlineUsers.map (fun e =>
      if e.2.user.oid = oid then
        (e.1, { e.2 with
          user := { e.2.user with val := { e.2.user.val with lat := lat, lng := lng } } })
      else e) }

/-- The `adminCommand` branch of the message handler. -/
def adminCommand (s : State α) (ws : Conn) (password command : Option String) (env : Env α) :
    State α × List (Effect α) :=
  let user := JSMap.get s.socketUser ws
  if password ≠ some ADMIN_PASSWORD then
    (s, [Effect.send ws (Frame.adminResponse false "管理员密码错误" none none)])
  else if command = some "clearBubbles" then
    let r := clearAllBubbles s
      (match user with
        | some u => u.val.nickname
        | none => "管理员") env
    (r.1, r.2.1 ++ [Effect.send ws
      (Frame.adminResponse r.2.2.success r.2.2.message (some r.2.2.clearedCount)
        (some r.2.2.timestamp))])
  else if command = some "getStats" then
    (s, [Effect.send ws (Frame.adminStats true
      { bubbleCount := s.bubbles.length, onlineUsers := s.onlineUsers.length,
        totalPublished := s.stats.totalPublished, totalQueried := s.stats.totalQueried,
        totalMessages := s.stats.totalMessages, lastCleared := s.stats.lastCleared,
        clearedBy := s.stats.clearedBy })])
  else if command = some "saveBackup" then
    (s, [Effect.send ws (Frame.adminResponse true
      ("已保存备份，共 " ++ toString s.bubbles.length ++ " 个气泡") none none)])
  else
    (s, [Effect.send ws (Frame.adminResponse false "未知的管理员命令" none none)])

/-- The handlers of one connection `ws`: the body of `ws.on("message")` after
`JSON.parse`, the two database callbacks, and `ws.on("close")`.  The result is
the new state and the calls made, or `none` when the handler throws. -/
def handle (calcDist : α → α → α → α → α) (s : State α) (ws : Conn) (data : Event α)
    (env : Env α) : Option (State α × List (Effect α)) :=
  match data with
  | Event.ping => some (s, [Effect.send ws Frame.pong])
  | Event.register success message user =>
    some (s, [Effect.send ws (Frame.registerResponse success message user)])
  | Event.authLogin (AuthResult.failure message) =>
    some (s, [Effect.send ws (Frame.loginFailed message)])
  | Event.authLogin (AuthResult.success dbUser message) =>
    let user : User α :=
      { id := dbUser.id, nickname := dbUser.username, phone := some dbUser.phone,
        avatar := dbUser.avatar, lat := none, lng := none }
    let r := installSession s ws user
    some (r.1, r.2 ++ [Effect.send ws (Frame.loginSuccess user (some message))]
      ++ broadcast r.1 (Frame.userJoined user.id user.nickname user.avatar)
      ++ broadcast r.1 (Frame.onlineCount r.1.onlineUsers.length))
  | Event.adminCommand password command => some (adminCommand s ws password command env)
  | Event.clearBubbles clearAll =>
    match JSMap.get s.socketUser ws with
    | none => some (s, [Effect.send ws (Frame.clearBubblesResponse false "用户未登录" none)])
    | some user =>
      if clearAll then
        let r := clearAllBubbles s user.val.nickname env
        some (r.1, r.2.1 ++ [Effect.send ws
          (Frame.clearBubblesResponse r.2.2.success r.2.2.message (some r.2.2.clearedCount))])
      else some (s, [])
  | Event.login userId nickname phone avatar =>
    let user : User α :=
      { id := strOr userId env.randId
        nickname := strOr nickname ("用户" ++ toString env.randNick)
        phone := phone
        avatar := strOr avatar "👤"
        lat := none, lng := none }
    let r := installSession s ws user
    some (r.1, r.2 ++ [Effect.send ws (Frame.loginSuccess user none)]
      ++ broadcast r.1 (Frame.userJoined user.id user.nickname user.avatar)
      ++ broadcast r.1 (Frame.onlineCount r.1.onlineUsers.length))
  | Event.position lat lng =>
    match JSMap.get s.socketUser ws with
    | none => some (s, [])
    | some user =>
      let s1 := setPosition s user.oid lat lng
      -- `user.lat.toFixed(4)` and `user.lng.toFixed(4)` throw unless both are numbers
      match lat, lng with
      | some la, some ln =>
        some (s1, broadcast s1
          (Frame.userPosition user.val.id user.val.nickname user.val.avatar la ln))
      | _, _ => none
  | Event.publicChat msg =>
    match JSMap.get s.socketUser ws with
    | none => some (s, [])
    | some user =>
      let msgObj := Frame.publicChat user.val.nickname user.val.id user.val.avatar msg env.now
      let s1 : State α :=
        { s with stats := { s.stats with totalMessages := s.stats.totalMessages + 1 } }
      some (s1, broadcast s1 msgObj)
  | Event.chatroomMsg msg roomCode =>
    match JSMap.get s.socketUser ws with
    | none => some (s, [])
    | some user =>
      let msgObj :=
        Frame.chatroomMsg user.val.nickname user.val.id user.val.avatar msg roomCode env.now
      let s1 : State α :=
        { s with stats := { s.stats with totalMessages := s.stats.totalMessages + 1 } }
      some (s1, (s1.onlineUsers.filter (fun e => isOpen s1 e.2.ws)).map
        (fun e => Effect.send e.2.ws msgObj))
  | Event.privateChat toId msg =>
    match JSMap.get s.socketUser ws with
    | none => some (s, [])
    | some user =>
      let targetWs : Option Conn :=
        match toId with
        | some t => JSMap.get s.userSocket t
        | none => none
      let msgObj :=
        Frame.privateChat user.val.nickname user.val.id toId user.val.avatar msg env.now
      let s1 : State α :=
        { s with stats := { s.stats with totalMessages := s.stats.totalMessages + 1 } }
      let forwarded : List (Effect α) :=
        match targetWs with
        | some t => if isOpen s1 t then [Effect.send t msgObj] else []
        | none => []
      some (s1, forwarded ++ [Effect.send ws msgObj])
  | Event.publishBubble bubbleType roomCode title content lat lng activityTags duration =>
    match JSMap.get s.socketUser ws with
    | none => some (s, [])
    | some user =>
      let bubble : Bubble α :=
        { id := env.randId
          author := user.val.nickname
          authorId := user.val.id
          avatar := user.val.avatar
          bubbleType := strOr bubbleType "recommend"
          roomCode := (match roomCode with
            | some r => if r = "" then none else some r
            | none => none)
          title := title
          content := strOr content ""
          lat := lat
          lng := lng
          activityTags := activityTags.getD []
          createdAt := env.now
          expiresAt := env.now2 + numOr duration 3600 * 1000 }
      let s1 : State α :=
        { s with
          bubbles := JSMap.set s.bubbles bubble.id bubble
          stats := { s.stats with totalPublished := s.stats.totalPublished + 1 } }
      some (s1, broadcast s1 (Frame.newBubble bubble)
        ++ [Effect.send ws (Frame.publishSuccess bubble.id)])
  | Event.queryBubbles lat lng radius =>
    match JSMap.get s.socketUser ws with
    | none => some (s, [])
    | some _ =>
      let results := queryResults calcDist s.bubbles lat lng radius env.now
      let s1 : State α :=
        { s with stats := { s.stats with totalQueried := s.stats.totalQueried + 1 } }
      some (s1, [Effect.send ws (Frame.queryResult results)])
  | Event.other => some (s, [])
  | Event.close =>
    -- the transport has set `ws.readyState` to `CLOSED` before it emits `close`
    let s0 : State α := { s with notOpen := ws :: s.notOpen }
    match JSMap.get s0.socketUser ws with
    | none => some (s0, [])
    | some user =>
      let s1 : State α :=
        { s0 with
          onlineUsers := JSMap.delete s0.onlineUsers user.val.id
          socketUser := JSMap.delete s0.socketUser ws
          userSocket := JSMap.delete s0.userSocket user.val.id }
      some (s1, broadcast s1 (Frame.onlineCount s1.onlineUsers.length)
        ++ broadcast s1 (Frame.userLeft user.val.id user.val.nickname))

/-- The hourly `setInterval` callback: every bubble with `expiresAt < now` is
deleted from the map while it is traversed; the second component is `deleted`. -/
def sweepExpired (s : State α) (now : α) : State α × Nat :=
  let r := s.bubbles.foldl
    (fun (acc : List (String × Bubble α) × Nat) e =>
      if e.2.expiresAt < now then (JSMap.delete acc.1 e.1, acc.2 + 1) else acc)
    (s.bubbles, 0)
  ({ s with bubbles := r.1 }, r.2)

/-- The `POST /api/clearBubbles` request handler, for a body that parses. -/
def httpClearBubbles (s : State α) (password initiator : Option String) (env : Env α) :
    State α × List (Effect α) :=
  if password ≠ some ADMIN_PASSWORD then (s, [])
  else
    let r := clearAllBubbles s (strOr initiator "HTTP管理员") env
    (r.1, r.2.1)

/-- Everything that makes the server run code on its state. -/
inductive Input (α : Type) where
  | ws (conn : Conn) (data : Event α)
  | sweep
  | httpClear (password initiator : Option String)
  | readyStateChange (conn : Conn)

/-- One turn of the event loop.  `readyStateChange` is the transport taking a
connection out of `OPEN` before its `close` event is delivered. -/
def step (calcDist : α → α → α → α → α) (s : State α) (i : Input α) (env : Env α) :
    Option (State α × List (Effect α)) :=
  match i with
  | Input.ws conn data => handle calcDist s conn data env
  | Input.sweep => some ((sweepExpired s env.now).1, [])
  | Input.httpClear password initiator => some (httpClearBubbles s password initiator env)
  | Input.readyStateChange conn => some ({ s with notOpen := conn :: s.notOpen }, [])

/-- A sequence of turns, with the calls made along the way. -/
def run (calcDist : α → α → α → α → α) (s : State α) :
    List (Input α × Env α) → Option (State α × List (Effect α))
  | [] => some (s, [])
  | (i, env) :: rest =>
    match step calcDist s i env with
    | none => none
    | some r1 =>
      match run calcDist r1.1 rest with
      | none => none
      | some r2 => some (r2.1, r1.2 ++ r2.2)

/-- The frames that the handlers hand to `broadcast` (or, for `chatroomMsg`, to
the loop written out in the handler). -/
def Frame.isBroadcast : Frame α → Bool
  | Frame.userJoined _ _ _ => true
  | Frame.onlineCount _ => true
  | Frame.userLeft _ _ => true
  | Frame.userPosition _ _ _ _ _ => true
  | Frame.publicChat _ _ _ _ _ => true
  | Frame.chatroomMsg _ _ _ _ _ _ => true
  | Frame.newBubble _ => true
  | Frame.bubblesCleared _ _ _ => true
  | _ => false

/-- The user id under which a login event installs its session: `data.userId ||
genUserId()` for `login`, `result.user.id` for a successful `authLogin`. -/
def Event.loginId (data : Event α) (env : Env α) : Option String :=
  match data with
  | Event.login userId _ _ _ => some (strOr userId env.randId)
  | Event.authLogin (AuthResult.success dbUser _) => some dbUser.id
  | _ => none

/-- The events whose handlers start by looking the sender up in `socketUser`
and do nothing when it is absent. -/
def Event.needsSession : Event α → Bool
  | Event.position _ _ => true
  | Event.publicChat _ => true
  | Event.chatroomMsg _ _ => true
  | Event.privateChat _ _ => true
  | Event.publishBubble _ _ _ _ _ _ _ _ => true
  | Event.queryBubbles _ _ _ => true
  | Event.close => true
  | _ => false

/-- Whether the input is a `publishBubble` message. -/
def Input.isPublish : Input α → Bool
  | Input.ws _ (Event.publishBubble _ _ _ _ _ _ _ _) => true
  | _ => false

/-- The keys of a map are pairwise distinct. -/
def KeysNodup {κ β : Type} (m : List (κ × β)) : Prop := (m.map Prod.fst).Nodup

/-- What the registry maintains in every state it reaches: the keys of
`onlineUsers` are distinct and `userSocket` holds, for the same ids in the same
order, the connection of the session. -/
def State.RegistryOk (s : State α) : Prop :=
  KeysNodup s.onlineUsers ∧ s.userSocket = s.onlineUsers.map (fun e => (e.1, e.2.ws))

/-- The maps `socketUser` and `userSocket` are inverse to each other. -/
def State.RegistryInverse (s : State α) : Prop :=
  ∀ (c : Conn) (u : String),
    (∃ user, JSMap.get s.socketUser c = some user ∧ user.val.id = u) ↔
      JSMap.get s.userSocket u = some c

/-- The active bubbles of the store at `now`, as the monitor page selects them
(`activeBubbles`). -/
def activeBubbles (s : State α) (now : α) : List (String × Bubble α) :=
  s.bubbles.filter (fun e => decide (e.2.expiresAt > now))

/-- The hits are in non-decreasing order of the distance that `calcDist` gives
from the query point `(lat, lng)` to each bubble. -/
def SortedByDistance (calcDist : α → α → α → α → α) (lat lng : Option α)
    (hits : List (QueryHit α)) : Prop :=
  hits.Pairwise (fun a b => ∀ da db,
    jsDistance calcDist lat lng a.bubble.lat a.bubble.lng = some da →
    jsDistance calcDist lat lng b.bubble.lat b.bubble.lng = some db → da ≤ db)

/-- The reply of the `queryBubbles` handler on `ws` is one `queryResult` frame,
and its bubbles are those of the store within `bound` of the query point: every
bubble with `expiresAt > now` within `bound` is in it, and every bubble in it is
held in the store, is within `bound` and has `expiresAt ≥ now`. -/
def RepliesWithin (calcDist : α → α → α → α → α) (s : State α) (ws : Conn)
    (lat lng radius : Option α) (env : Env α) (bound : α) : Prop :=
  ∃ s1 hits,
    handle calcDist s ws (Event.queryBubbles lat lng radius) env =
      some (s1, [Effect.send ws (Frame.queryResult hits)]) ∧
    (∀ e ∈ s.bubbles, ∀ d, e.2.expiresAt > env.now →
      jsDistance calcDist lat lng e.2.lat e.2.lng = some d → d ≤ bound →
      ∃ h ∈ hits, h.bubble = e.2) ∧
    (∀ h ∈ hits, ∃ e ∈ s.bubbles, h.bubble = e.2 ∧ e.2.expiresAt ≥ env.now ∧
      ∃ d, jsDistance calcDist lat lng e.2.lat e.2.lng = some d ∧ d ≤ bound)

/-! ### Concrete runs -/

/-- A bubble on the equator published with `duration: 1` at time 0. -/
def expiryBubble : Bubble α :=
  { id := "b1", author := "n", authorId := "u", avatar := "a", bubbleType := "recommend",
    roomCode := none, title := some "t", content := "", lat := some 0, lng := some 0,
    activityTags := [], createdAt := 0, expiresAt := 1000 }

/-- A login on connection 1 and the publication of `expiryBubble`. -/
def expiryScenario : List (Input α × Env α) :=
  [(Input.ws 1 (Event.login (some "u") (some "n") none (some "a")), ⟨0, 0, "", "", 0⟩),
   (Input.ws 1 (Event.publishBubble none none (some "t") none (some 0) (some 0) none (some 1)),
     ⟨0, 0, "", "b1", 0⟩)]

/-- A bubble at latitude 0.000101, longitude 0. -/
def farBubble : Bubble α :=
  { id := "far", author := "n", authorId := "u", avatar := "a", bubbleType := "recommend",
    roomCode := none, title := some "t", content := "", lat := some (101 / 1000000),
    lng := some 0, activityTags := [], createdAt := 0, expiresAt := 3600000 }

/-- A bubble at latitude 0.0001, longitude 0. -/
def nearBubble : Bubble α :=
  { id := "near", author := "n", authorId := "u", avatar := "a", bubbleType := "recommend",
    roomCode := none, title := some "t", content := "", lat := some (1 / 10000),
    lng := some 0, activityTags := [], createdAt := 0, expiresAt := 3600000 }

/-- A login on connection 1, then `farBubble` and `nearBubble` published in
this order. -/
def roundingScenario : List (Input α × Env α) :=
  [(Input.ws 1 (Event.login (some "u") (some "n") none (some "a")), ⟨0, 0, "", "", 0⟩),
   (Input.ws 1 (Event.publishBubble none none (some "t") none (some (101 / 1000000)) (some 0)
      none none), ⟨0, 0, "", "far", 0⟩),
   (Input.ws 1 (Event.publishBubble none none (some "t") none (some (1 / 10000)) (some 0)
      none none), ⟨0, 0, "", "near", 0⟩)]

/-- The calls `effs` are, in this order: direct calls `pre`, one complete
`broadcast` on the state `s` for each frame of `bs`, and direct calls `post`;
the direct calls send no frame of a broadcast kind. -/
def BroadcastShape (s : State α) (effs : List (Effect α)) : Prop :=
  ∃ (pre : List (Effect α)) (bs : List (Frame α)) (post : List (Effect α)),
    effs = pre ++ bs.flatMap (broadcast s) ++ post ∧
    (∀ c f, Effect.send c f ∈ pre → f.isBroadcast = false) ∧
    (∀ c f, Effect.send c f ∈ post → f.isBroadcast = false) ∧
    (∀ f ∈ bs, f.isBroadcast = true) ∧ bs.Nodup

/-- Two logins under the id `u`, first on connection 1, then on connection 2. -/
def reloginScenario : List (Input α × Env α) :=
  [(Input.ws 1 (Event.login (some "u") (some "n") none (some "a")), ⟨0, 0, "", "", 0⟩),
   (Input.ws 2 (Event.login (some "u") (some "n") none (some "a")), ⟨0, 0, "", "", 0⟩)]

/-- Two logins on connection 1, first under the id `u`, then under the id `v`. -/
def sharedConnScenario : List (Input α × Env α) :=
  [(Input.ws 1 (Event.login (some "u") (some "n") none (some "a")), ⟨0, 0, "", "", 0⟩),
   (Input.ws 1 (Event.login (some "v") (some "m") none (some "a")), ⟨0, 0, "", "", 0⟩)]

/-- The frame that a `chatroomMsg` of the user `u` of `sampleState` produces. -/
def sampleChat : Frame α := Frame.chatroomMsg "n" "u" "a" (some "hi") (some "room") 0

/-- The frames sent to connection `c` by the calls `effs`, in order. -/
def framesTo (effs : List (Effect α)) (c : Conn) : List (Frame α) :=
  effs.filterMap (fun e =>
    match e with
    | Effect.send ws data => if ws = c then some data else none
    | Effect.close _ => none)

/-- A login, a bubble published with `duration: 1` and a bubble published with
the default duration, all at time 0. -/
def staleScenario : List (Input α × Env α) :=
  [(Input.ws 1 (Event.login (some "u") (some "n") none (some "a")), ⟨0, 0, "", "", 0⟩),
   (Input.ws 1 (Event.publishBubble none none (some "t") none (some 0) (some 0) none (some 1)),
     ⟨0, 0, "", "stale", 0⟩),
   (Input.ws 1 (Event.publishBubble none none (some "t") none (some 0) (some 0) none none),
     ⟨0, 0, "", "fresh", 0⟩)]

/-- A login of `w` on connection 3, then two logins under the id `u`, on
connection 1 and on connection 2. -/
def supersededScenario : List (Input α × Env α) :=
  [(Input.ws 3 (Event.login (some "w") (some "k") none (some "a")), ⟨0, 0, "", "", 0⟩),
   (Input.ws 1 (Event.login (some "u") (some "n") none (some "a")), ⟨0, 0, "", "", 0⟩),
   (Input.ws 2 (Event.login (some "u") (some "n") none (some "a")), ⟨0, 0, "", "", 0⟩)]

/-- A state with two sessions (`u` on connection 1, `v` on connection 2) and the
two bubbles of `roundingScenario`: the state after `roundingScenario` followed by
a login of `v` on connection 2. -/
def sampleState : State α :=
  { bubbles := [("far", farBubble), ("near", nearBubble)]
    onlineUsers :=
      [("u", ⟨⟨0, ⟨"u", "n", none, "a", none, none⟩⟩, 1⟩),
       ("v", ⟨⟨1, ⟨"v", "m", none, "a", none, none⟩⟩, 2⟩)]
    socketUser :=
      [(1, ⟨0, ⟨"u", "n", none, "a", none, none⟩⟩), (2, ⟨1, ⟨"v", "m", none, "a", none, none⟩⟩)]
    userSocket := [("u", 1), ("v", 2)]
    stats := ⟨2, 0, 0, none, none⟩
    notOpen := []
    nextOid := 2 }

/-- The number of sessions of `onlineUsers` that are bound to the connection `c`
while `c` is open; it is 0 when `c` has left `OPEN` or no session is bound to it. -/
def openSessionsOn (s : State α) (c : Conn) : Nat :=
  (s.onlineUsers.filter (fun e => decide (e.2.ws = c) && isOpen s c)).length

/-- Among the calls `effs`, every connection is sent the frame `f` once for each
session of the registry of `s` that is bound to it with an open socket, and so
not at all when it is closed or has no session. -/
def DeliversOnce (s : State α) (effs : List (Effect α)) (f : Frame α) : Prop :=
  ∀ c, effs.count (Effect.send c f) = openSessionsOn s c

/-- The frame that a `publicChat` of the user `u` of `sampleState` produces. -/
def samplePublic : Frame α := Frame.publicChat "n" "u" "a" (some "hi") 0

/-- The state `sampleState` after the socket of connection 2 has left `OPEN`. -/
def sampleHalfOpen : State α := { (sampleState : State α) with notOpen := [2] }

end Core

/-! ## The distance function over the reals -/

/-- The function `Math.atan2(y, x)` over the reals. -/
noncomputable def atan2 (y x : ℝ) : ℝ :=
  if 0 < x then Real.arctan (y / x)
  else if x < 0 then
    (if 0 ≤ y then Real.arctan (y / x) + Real.pi else Real.arctan (y / x) - Real.pi)
  else if 0 < y then Real.pi / 2
  else if y < 0 then -(Real.pi / 2)
  else 0

/-- The function `calculateDistance(lat1, lng1, lat2, lng2)` read over the reals. -/
noncomputable def calculateDistance (lat1 lng1 lat2 lng2 : ℝ) : ℝ :=
  let R : ℝ := 6371000
  let dLat := ((lat2 - lat1) * Real.pi) / 180
  let dLng := ((lng2 - lng1) * Real.pi) / 180
  let a :=
    Real.sin (dLat / 2) * Real.sin (dLat / 2) +
      Real.cos ((lat1 * Real.pi) / 180) *
        Real.cos ((lat2 * Real.pi) / 180) *
        Real.sin (dLng / 2) *
        Real.sin (dLng / 2)
  let c := 2 * atan2 (Real.sqrt a) (Real.sqrt (1 - a))
  R * c

/-! # Theorems -/

set_option linter.unusedSectionVars false

/-! ## `calculateDistance` at the points used below -/

theorem calculateDistance_same (lat lng : ℝ) : calculateDistance lat lng lat lng = 0 := by
  simp [calculateDistance, atan2]

/-- Along the prime meridian, from the equator up to latitude 90, the formula
gives the arc length. -/
theorem calculateDistance_meridian (x : ℝ) (h0 : 0 ≤ x) (h1 : x ≤ 90) :
    calculateDistance 0 0 x 0 = 6371000 * (x * Real.pi / 180) := by
  have hpi := Real.pi_pos
  have hθ0 : 0 ≤ x * Real.pi / 180 / 2 := by positivity
  have hθ1 : x * Real.pi / 180 / 2 ≤ Real.pi / 4 := by nlinarith
  have hsin : 0 ≤ Real.sin (x * Real.pi / 180 / 2) :=
    Real.sin_nonneg_of_nonneg_of_le_pi hθ0 (by linarith)
  have hcos : 0 < Real.cos (x * Real.pi / 180 / 2) :=
    Real.cos_pos_of_mem_Ioo ⟨by linarith, by linarith⟩
  have hb : 1 - Real.sin (x * Real.pi / 180 / 2) * Real.sin (x * Real.pi / 180 / 2)
      = Real.cos (x * Real.pi / 180 / 2) * Real.cos (x * Real.pi / 180 / 2) := by
    have := Real.sin_sq_add_cos_sq (x * Real.pi / 180 / 2)
    nlinarith
  have hat : Real.arctan (Real.sin (x * Real.pi / 180 / 2) / Real.cos (x * Real.pi / 180 / 2))
      = x * Real.pi / 180 / 2 := by
    rw [← Real.tan_eq_sin_div_cos]
    exact Real.arctan_tan (by linarith) (by linarith)
  simp only [calculateDistance, atan2, sub_zero, sub_self, zero_mul, zero_div, Real.sin_zero,
    mul_zero, add_zero, hb, Real.sqrt_mul_self hsin, Real.sqrt_mul_self hcos.le, if_pos hcos, hat]
  ring

theorem dist_far : calculateDistance 0 0 (101 / 1000000) 0
    = 6371000 * ((101 / 1000000) * Real.pi / 180) :=
  calculateDistance_meridian _ (by norm_num) (by norm_num)

theorem dist_near : calculateDistance 0 0 (1 / 10000) 0
    = 6371000 * ((1 / 10000) * Real.pi / 180) :=
  calculateDistance_meridian _ (by norm_num) (by norm_num)

theorem dist_near_lt_far :
    calculateDistance 0 0 (1 / 10000) 0 < calculateDistance 0 0 (101 / 1000000) 0 := by
  have h1 := Real.pi_gt_d2
  rw [dist_far, dist_near]; linarith

theorem dist_near_pos : 0 < calculateDistance 0 0 (1 / 10000) 0 := by
  have h1 := Real.pi_gt_d2
  rw [dist_near]; linarith

theorem round_far : mathRound (calculateDistance 0 0 (101 / 1000000) 0) = 11 := by
  have h1 := Real.pi_gt_d2
  have h2 := Real.pi_lt_d2
  rw [dist_far, mathRound, Int.floor_eq_iff]
  constructor <;> norm_num <;> linarith

theorem round_near : mathRound (calculateDistance 0 0 (1 / 10000) 0) = 11 := by
  have h1 := Real.pi_gt_d2
  have h2 := Real.pi_lt_d2
  rw [dist_near, mathRound, Int.floor_eq_iff]
  constructor <;> norm_num <;> linarith

theorem hit_far (radius : Option ℝ) (hr : numOr radius 5000 = 5000) :
    queryHit calculateDistance (some 0) (some 0) radius 0 ("far", farBubble)
      = some ⟨farBubble, 11⟩ := by
  have h2 := Real.pi_lt_d2
  have lf : calculateDistance 0 0 (101 / 1000000) 0 ≤ 5000 := by rw [dist_far]; linarith
  have he : ¬ ((3600000 : ℝ) < 0) := by norm_num
  simp only [queryHit, farBubble, jsDistance, hr, if_neg he, if_pos lf, round_far]

theorem hit_near (radius : Option ℝ) (hr : numOr radius 5000 = 5000) :
    queryHit calculateDistance (some 0) (some 0) radius 0 ("near", nearBubble)
      = some ⟨nearBubble, 11⟩ := by
  have h2 := Real.pi_lt_d2
  have lf : calculateDistance 0 0 (1 / 10000) 0 ≤ 5000 := by rw [dist_near]; linarith
  have he : ¬ ((3600000 : ℝ) < 0) := by norm_num
  simp only [queryHit, nearBubble, jsDistance, hr, if_neg he, if_pos lf, round_near]

/-- The state after `roundingScenario`: both bubbles are in the store, in
publish order, and connection 1 has a session. -/
theorem rounding_run :
    ∃ s effs user, run calculateDistance State.init roundingScenario = some (s, effs) ∧
      s.bubbles = [("far", farBubble), ("near", nearBubble)] ∧
      JSMap.get s.socketUser 1 = some user := by
  simp [run, step, handle, roundingScenario, State.init, installSession, JSMap.get, JSMap.set,
    broadcast, isOpen, strOr, numOr, farBubble, nearBubble]
  norm_num

/-- With `radius` absent or 0, the query from the origin at time 0 after
`roundingScenario` replies with the far bubble before the near one. -/
theorem rounding_query (radius : Option ℝ) (hr : numOr radius 5000 = 5000) :
    ∃ s effs, run calculateDistance State.init roundingScenario = some (s, effs) ∧
      (handle calculateDistance s 1 (Event.queryBubbles (some 0) (some 0) radius)
        ⟨0, 0, "", "", 0⟩).map Prod.snd =
        some [Effect.send 1 (Frame.queryResult [⟨farBubble, 11⟩, ⟨nearBubble, 11⟩])] := by
  obtain ⟨s, effs, user, hrun, hb, hu⟩ := rounding_run
  refine ⟨s, effs, hrun, ?_⟩
  simp only [handle, hu, queryResults, queryFilter, hb, List.filterMap_cons, hit_far radius hr,
    hit_near radius hr, List.filterMap_nil, List.insertionSort, List.orderedInsert, le_refl,
    if_true, Option.map_some']

/-- The state `sampleState` used in the worked instances is one the server
reaches: `roundingScenario` followed by a login of `v` on connection 2. -/
theorem sampleState_reachable :
    ∃ effs, run calculateDistance (State.init : State ℝ)
      (roundingScenario ++
        [(Input.ws 2 (Event.login (some "v") (some "m") none (some "a")), ⟨0, 0, "", "", 0⟩)])
      = some (sampleState, effs) := by
  simp [run, step, handle, roundingScenario, State.init, installSession, JSMap.get, JSMap.set,
    broadcast, isOpen, strOr, numOr, farBubble, nearBubble, sampleState]
  norm_num

/-! ## The `queryBubbles` handler -/

section Query

variable {α : Type} [LinearOrderedField α] [FloorRing α]

theorem queryHit_some {calcDist : α → α → α → α → α} {lat lng radius : Option α} {now : α}
    {e : String × Bubble α} {h : QueryHit α}
    (hq : queryHit calcDist lat lng radius now e = some h) :
    h.bubble = e.2 ∧ ¬ e.2.expiresAt < now ∧
      ∃ d, jsDistance calcDist lat lng e.2.lat e.2.lng = some d ∧ d ≤ numOr radius 5000 ∧
        h.distance = mathRound d := by
  unfold queryHit at hq
  split at hq
  · exact absurd hq (by simp)
  · rename_i hexp
    split at hq
    · exact absurd hq (by simp)
    · rename_i d hd
      split at hq
      · rename_i hle
        cases hq
        exact ⟨rfl, hexp, d, hd, hle, rfl⟩
      · exact absurd hq (by simp)

theorem queryHit_of_active {calcDist : α → α → α → α → α} {lat lng radius : Option α} {now : α}
    {e : String × Bubble α} {d : α} (hexp : ¬ e.2.expiresAt < now)
    (hd : jsDistance calcDist lat lng e.2.lat e.2.lng = some d) (hle : d ≤ numOr radius 5000) :
    queryHit calcDist lat lng radius now e = some ⟨e.2, mathRound d⟩ := by
  simp only [queryHit, if_neg hexp, hd, if_pos hle]

/-- The callback looks at the bubble only, not at its key. -/
theorem queryHit_congr {calcDist : α → α → α → α → α} {lat lng radius : Option α} {now : α}
    {e1 e2 : String × Bubble α} (h : e1.2 = e2.2) :
    queryHit calcDist lat lng radius now e1 = queryHit calcDist lat lng radius now e2 := by
  simp only [queryHit, h]

theorem mem_queryResults {calcDist : α → α → α → α → α} {bubbles : List (String × Bubble α)}
    {lat lng radius : Option α} {now : α} {h : QueryHit α} :
    h ∈ queryResults calcDist bubbles lat lng radius now ↔
      ∃ e ∈ bubbles, queryHit calcDist lat lng radius now e = some h := by
  simp only [queryResults, List.mem_insertionSort, queryFilter, List.mem_filterMap]

theorem handle_queryBubbles {calcDist : α → α → α → α → α} {s : State α} {ws : Conn}
    {user : UserObj α} (lat lng radius : Option α) (env : Env α)
    (hu : JSMap.get s.socketUser ws = some user) :
    handle calcDist s ws (Event.queryBubbles lat lng radius) env =
      some ({ s with stats := { s.stats with totalQueried := s.stats.totalQueried + 1 } },
        [Effect.send ws
          (Frame.queryResult (queryResults calcDist s.bubbles lat lng radius env.now))]) := by
  simp only [handle, hu]

theorem repliesWithin_numOr (calcDist : α → α → α → α → α) (s : State α) (ws : Conn)
    (user : UserObj α) (lat lng radius : Option α) (env : Env α)
    (hu : JSMap.get s.socketUser ws = some user) :
    RepliesWithin calcDist s ws lat lng radius env (numOr radius 5000) := by
  refine ⟨_, _, handle_queryBubbles lat lng radius env hu, ?_, ?_⟩
  · intro e he d hexp hd hle
    exact ⟨⟨e.2, mathRound d⟩,
      mem_queryResults.2 ⟨e, he, queryHit_of_active (not_lt.2 hexp.le) hd hle⟩, rfl⟩
  · intro h hh
    obtain ⟨e, he, hq⟩ := mem_queryResults.1 hh
    obtain ⟨hb, hexp, d, hd, hle, _⟩ := queryHit_some hq
    exact ⟨e, he, hb, not_lt.1 hexp, d, hd, hle⟩

end Query

/-- C1 (the code at the failing input): a bubble published at time 0 with
`duration: 1` has `expiresAt = 1000`; a query from the same point at
`now = 1000 = expiresAt` still returns it. -/
theorem queryBubbles_returns_bubble_at_expiry :
    ∃ s effs, run calculateDistance (State.init : State ℝ) expiryScenario = some (s, effs) ∧
      s.bubbles = [("b1", expiryBubble)] ∧
      (expiryBubble : Bubble ℝ).expiresAt = 1000 ∧
      (handle calculateDistance s 1 (Event.queryBubbles (some 0) (some 0) none)
        ⟨1000, 1000, "", "", 0⟩).map Prod.snd =
        some [Effect.send 1 (Frame.queryResult [⟨expiryBubble, 0⟩])] := by
  simp [run, step, handle, expiryScenario, State.init, installSession, JSMap.get, JSMap.set,
    broadcast, isOpen, strOr, numOr, queryResults, queryFilter, queryHit, jsDistance,
    calculateDistance_same, mathRound, expiryBubble]
  norm_num

/-- C2 (counterexample): after `roundingScenario` the query from the origin
replies with the far bubble (11.23 m) before the near one (11.12 m), both
carrying `distance: 11`, so the reply is not in non-decreasing order of
`calculateDistance`. -/
theorem queryBubbles_not_sorted_by_calculateDistance :
    ∃ s effs hits, run calculateDistance (State.init : State ℝ) roundingScenario = some (s, effs) ∧
      (handle calculateDistance s 1 (Event.queryBubbles (some 0) (some 0) none)
        ⟨0, 0, "", "", 0⟩).map Prod.snd = some [Effect.send 1 (Frame.queryResult hits)] ∧
      hits = [⟨farBubble, 11⟩, ⟨nearBubble, 11⟩] ∧
      ¬ SortedByDistance calculateDistance (some 0) (some 0) hits := by
  obtain ⟨s, effs, hrun, hq⟩ := rounding_query none rfl
  refine ⟨s, effs, _, hrun, hq, rfl, ?_⟩
  intro hsorted
  have h := (List.pairwise_cons.1 hsorted).1 ⟨nearBubble, 11⟩ (by simp) _ _ rfl rfl
  exact absurd dist_near_lt_far (not_lt.2 h)

/-- C2 (amended): the reply of the `queryBubbles` handler carries, for each
bubble, `distance = Math.round` of its `calculateDistance` value; it is sorted
non-decreasingly by that rounded `distance`, and two returned bubbles with equal
rounded distance appear in the order in which the store holds them, which is
the order of publication. -/
theorem queryBubbles_sorted_by_rounded_distance {α : Type} [LinearOrderedField α] [FloorRing α]
    (calcDist : α → α → α → α → α) (s : State α) (ws : Conn) (user : UserObj α)
    (lat lng radius : Option α) (env : Env α)
    (hu : JSMap.get s.socketUser ws = some user) :
    ∃ s1 hits,
      handle calcDist s ws (Event.queryBubbles lat lng radius) env =
        some (s1, [Effect.send ws (Frame.queryResult hits)]) ∧
      (∀ h ∈ hits, ∃ d, jsDistance calcDist lat lng h.bubble.lat h.bubble.lng = some d ∧
        h.distance = mathRound d) ∧
      hits.Sorted (fun a b => a.distance ≤ b.distance) ∧
      ∀ e1 e2, List.Sublist [e1, e2] s.bubbles → ∀ h1 ∈ hits, ∀ h2 ∈ hits,
        h1.bubble = e1.2 → h2.bubble = e2.2 → h1.distance = h2.distance →
        List.Sublist [h1, h2] hits := by
  haveI : IsTotal (QueryHit α) (fun a b => a.distance ≤ b.distance) :=
    ⟨fun a b => le_total a.distance b.distance⟩
  haveI : IsTrans (QueryHit α) (fun a b => a.distance ≤ b.distance) :=
    ⟨fun a b c hab hbc => le_trans hab hbc⟩
  refine ⟨_, _, handle_queryBubbles lat lng radius env hu, ?_, ?_, ?_⟩
  · intro h hh
    obtain ⟨e, _, hq⟩ := mem_queryResults.1 hh
    obtain ⟨hb, _, d, hd, _, hr⟩ := queryHit_some hq
    exact ⟨d, by rw [hb]; exact hd, hr⟩
  · exact List.sorted_insertionSort _ _
  · intro e1 e2 hsub h1 hh1 h2 hh2 hb1 hb2 heq
    obtain ⟨a1, _, hq1⟩ := mem_queryResults.1 hh1
    obtain ⟨a2, _, hq2⟩ := mem_queryResults.1 hh2
    have hq1e : queryHit calcDist lat lng radius env.now e1 = some h1 := by
      rw [← hq1]; exact queryHit_congr (by rw [← hb1, (queryHit_some hq1).1])
    have hq2e : queryHit calcDist lat lng radius env.now e2 = some h2 := by
      rw [← hq2]; exact queryHit_congr (by rw [← hb2, (queryHit_some hq2).1])
    have hsub2 := hsub.filterMap (queryHit calcDist lat lng radius env.now)
    simp only [List.filterMap_cons, hq1e, hq2e, List.filterMap_nil] at hsub2
    exact List.pair_sublist_insertionSort (le_of_eq heq) hsub2

/-- C2 (witness): the amended statement for a query from connection 1 in
`sampleState`, whose store holds two bubbles. -/
theorem queryBubbles_sorted_by_rounded_distance_witness :
    JSMap.get (sampleState : State ℝ).socketUser 1 = some ⟨0, ⟨"u", "n", none, "a", none, none⟩⟩ ∧
    ∃ s1 hits,
      handle calculateDistance sampleState 1 (Event.queryBubbles (some 0) (some 0) none)
        ⟨0, 0, "", "", 0⟩ = some (s1, [Effect.send 1 (Frame.queryResult hits)]) ∧
      (∀ h ∈ hits, ∃ d, jsDistance calculateDistance (some 0) (some 0)
          h.bubble.lat h.bubble.lng = some d ∧ h.distance = mathRound d) ∧
      hits.Sorted (fun a b => a.distance ≤ b.distance) ∧
      ∀ e1 e2, List.Sublist [e1, e2] (sampleState : State ℝ).bubbles →
        ∀ h1 ∈ hits, ∀ h2 ∈ hits,
        h1.bubble = e1.2 → h2.bubble = e2.2 → h1.distance = h2.distance →
        List.Sublist [h1, h2] hits :=
  ⟨rfl, queryBubbles_sorted_by_rounded_distance calculateDistance sampleState 1 _ _ _ _ _ rfl⟩

/-- C3 (counterexample): after `roundingScenario` a query from the origin with
`radius: 0` is answered with both bubbles, although the near one is more than
0 m away: the reply is not the set of bubbles within the given radius 0. -/
theorem queryBubbles_radius_zero_not_within :
    ∃ s effs, run calculateDistance (State.init : State ℝ) roundingScenario = some (s, effs) ∧
      (handle calculateDistance s 1 (Event.queryBubbles (some 0) (some 0) (some 0))
        ⟨0, 0, "", "", 0⟩).map Prod.snd =
        some [Effect.send 1 (Frame.queryResult [⟨farBubble, 11⟩, ⟨nearBubble, 11⟩])] ∧
      jsDistance calculateDistance (some 0) (some 0) (nearBubble : Bubble ℝ).lat
        (nearBubble : Bubble ℝ).lng = some (calculateDistance 0 0 (1 / 10000) 0) ∧
      ¬ calculateDistance 0 0 (1 / 10000) 0 ≤ 0 ∧
      ¬ RepliesWithin calculateDistance s 1 (some 0) (some 0) (some 0) ⟨0, 0, "", "", 0⟩ 0 := by
  obtain ⟨s, effs, hrun, hq⟩ := rounding_query (some 0) (by simp [numOr])
  refine ⟨s, effs, hrun, hq, rfl, not_le.2 dist_near_pos, ?_⟩
  rintro ⟨s1, hits, hh, -, hex⟩
  rw [hh] at hq
  simp only [Option.map_some', Option.some.injEq, List.cons.injEq, Effect.send.injEq,
    Frame.queryResult.injEq, true_and, and_true] at hq
  obtain ⟨e, -, hb, -, d, hd, hle⟩ := hex ⟨nearBubble, 11⟩ (by rw [hq]; simp)
  have hb2 : e.2 = nearBubble := hb.symm
  rw [hb2] at hd
  have hd2 : calculateDistance 0 0 (1 / 10000) 0 = d := by
    simpa [jsDistance, nearBubble] using hd
  exact absurd dist_near_pos (not_lt.2 (hd2 ▸ hle))

/-- C3 (amended): for a query from a connection with a session, the reply holds
the bubbles of the store within the effective radius, which is the given radius
`r` when `r ≠ 0` and 5000 when the radius is absent or 0: every bubble with
`expiresAt > now` within it is returned, and every returned bubble is within it
and has `expiresAt ≥ now`. -/
theorem queryBubbles_within_effective_radius {α : Type} [LinearOrderedField α] [FloorRing α]
    (calcDist : α → α → α → α → α) (s : State α) (ws : Conn) (user : UserObj α)
    (lat lng : Option α) (env : Env α) (hu : JSMap.get s.socketUser ws = some user) :
    (∀ r : α, r ≠ 0 → RepliesWithin calcDist s ws lat lng (some r) env r) ∧
    RepliesWithin calcDist s ws lat lng none env 5000 ∧
    RepliesWithin calcDist s ws lat lng (some 0) env 5000 := by
  refine ⟨fun r hr => ?_, ?_, ?_⟩
  · have h := repliesWithin_numOr calcDist s ws user lat lng (some r) env hu
    simpa only [numOr, if_neg hr] using h
  · exact repliesWithin_numOr calcDist s ws user lat lng none env hu
  · have h := repliesWithin_numOr calcDist s ws user lat lng (some 0) env hu
    simpa only [numOr, if_true] using h

/-- C3 (witness): the amended statement for a query from connection 1 in
`sampleState`. -/
theorem queryBubbles_within_effective_radius_witness :
    JSMap.get (sampleState : State ℝ).socketUser 1 = some ⟨0, ⟨"u", "n", none, "a", none, none⟩⟩ ∧
    ((∀ r : ℝ, r ≠ 0 →
        RepliesWithin calculateDistance sampleState 1 (some 0) (some 0) (some r)
          ⟨0, 0, "", "", 0⟩ r) ∧
      RepliesWithin calculateDistance sampleState 1 (some 0) (some 0) none ⟨0, 0, "", "", 0⟩ 5000 ∧
      RepliesWithin calculateDistance sampleState 1 (some 0) (some 0) (some 0)
        ⟨0, 0, "", "", 0⟩ 5000) :=
  ⟨rfl, queryBubbles_within_effective_radius calculateDistance sampleState 1 _ _ _ _ rfl⟩


/-! ## `Map` operations -/

namespace JSMap

variable {κ β γ : Type} [DecidableEq κ]

theorem get_set_self (m : List (κ × β)) (k : κ) (v : β) : get (set m k v) k = some v := by
  induction m with
  | nil => simp [set, get]
  | cons e t ih =>
    obtain ⟨k1, v1⟩ := e
    by_cases h : k1 = k <;> simp [set, get, h, ih]

theorem get_set_ne (m : List (κ × β)) {k k2 : κ} (v : β) (h : k ≠ k2) :
    get (set m k v) k2 = get m k2 := by
  induction m with
  | nil => simp [set, get, h]
  | cons e t ih =>
    obtain ⟨k1, v1⟩ := e
    by_cases h1 : k1 = k
    · subst h1; simp [set, get, h]
    · by_cases h2 : k1 = k2
      · subst h2; simp [set, get, h1]
      · simp [set, get, h1, h2, ih]

theorem keys_set (m : List (κ × β)) (k : κ) (v : β) :
    ∀ x, x ∈ (set m k v).map Prod.fst ↔ x = k ∨ x ∈ m.map Prod.fst := by
  intro x
  induction m with
  | nil => simp [set]
  | cons e t ih =>
    obtain ⟨k1, v1⟩ := e
    by_cases h1 : k1 = k
    · subst h1; simp [set]
    · simp only [set, if_neg h1, List.map_cons, List.mem_cons, ih]
      tauto

theorem keysNodup_set {m : List (κ × β)} (h : KeysNodup m) (k : κ) (v : β) :
    KeysNodup (set m k v) := by
  induction m with
  | nil => simp [set, KeysNodup]
  | cons e t ih =>
    obtain ⟨k1, v1⟩ := e
    unfold KeysNodup at h ih ⊢
    rw [List.map_cons, List.nodup_cons] at h
    by_cases h1 : k1 = k
    · subst h1
      simp only [set, if_true, List.map_cons, List.nodup_cons]
      exact h
    · simp only [set, if_neg h1, List.map_cons, List.nodup_cons]
      refine ⟨?_, ih h.2⟩
      rw [keys_set]
      rintro (h2 | h2)
      · exact h1 h2
      · exact h.1 h2

theorem filter_key_set {m : List (κ × β)} (h : KeysNodup m) (k : κ) (v : β) :
    (set m k v).filter (fun e => decide (e.1 = k)) = [(k, v)] := by
  induction m with
  | nil => simp [set]
  | cons e t ih =>
    obtain ⟨k1, v1⟩ := e
    unfold KeysNodup at h ih
    rw [List.map_cons, List.nodup_cons] at h
    by_cases h1 : k1 = k
    · subst h1
      simp only [set, if_true, List.filter_cons, decide_True]
      congr 1
      rw [List.filter_eq_nil_iff]
      intro a ha
      have : a.1 ∈ t.map Prod.fst := List.mem_map_of_mem _ ha
      simp only [decide_eq_true_eq]
      rintro rfl
      exact h.1 this
    · simp [set, h1, List.filter_cons, ih h.2]

theorem map_set (m : List (κ × β)) (k : κ) (v : β) (f : β → γ) :
    (set m k v).map (fun e => (e.1, f e.2)) = set (m.map (fun e => (e.1, f e.2))) k (f v) := by
  induction m with
  | nil => simp [set]
  | cons e t ih =>
    obtain ⟨k1, v1⟩ := e
    by_cases h1 : k1 = k <;> simp [set, h1, ih]

theorem map_delete (m : List (κ × β)) (k : κ) (f : β → γ) :
    (delete m k).map (fun e => (e.1, f e.2)) = delete (m.map (fun e => (e.1, f e.2))) k := by
  simp [delete, List.filter_map, Function.comp_def]

theorem keysNodup_delete {m : List (κ × β)} (h : KeysNodup m) (k : κ) :
    KeysNodup (delete m k) := by
  unfold KeysNodup at h ⊢
  exact h.sublist ((List.filter_sublist _).map _)

theorem get_map (m : List (κ × β)) (k : κ) (f : β → γ) :
    get (m.map (fun e => (e.1, f e.2))) k = (get m k).map f := by
  induction m with
  | nil => simp [get]
  | cons e t ih =>
    obtain ⟨k1, v1⟩ := e
    by_cases h1 : k1 = k <;> simp [get, h1, ih]

end JSMap


/-! ## The registry -/

section Registry

variable {α : Type} [LinearOrderedField α] [FloorRing α]

theorem mem_broadcast {s : State α} {g : Frame α} {x : Effect α} :
    x ∈ broadcast s g ↔ ∃ e ∈ s.onlineUsers, isOpen s e.2.ws = true ∧ x = Effect.send e.2.ws g := by
  simp only [broadcast, List.mem_map, List.mem_filter]
  constructor
  · rintro ⟨e, ⟨he, ho⟩, rfl⟩
    exact ⟨e, he, ho, rfl⟩
  · rintro ⟨e, he, ho, rfl⟩
    exact ⟨e, ⟨he, ho⟩, rfl⟩

theorem count_broadcast (s : State α) (g f : Frame α) (c : Conn) :
    (broadcast s g).count (Effect.send c f) =
      if g = f then
        (s.onlineUsers.filter (fun e => decide (e.2.ws = c) && isOpen s c)).length
      else 0 := by
  unfold broadcast
  induction s.onlineUsers with
  | nil => simp
  | cons e t ih =>
    by_cases hg : g = f
    · subst hg
      simp only [if_true] at ih ⊢
      by_cases hc : e.2.ws = c
      · subst hc
        by_cases ho : isOpen s e.2.ws = true
        · simp [List.filter_cons, ho, ih]
        · simp [List.filter_cons, ho, ih]
      · by_cases ho : isOpen s e.2.ws = true
        · simp [List.filter_cons, ho, hc, ih, List.count_cons]
        · simp [List.filter_cons, ho, hc, ih]
    · simp only [if_neg hg] at ih ⊢
      by_cases ho : isOpen s e.2.ws = true
      · simp [List.filter_cons, ho, ih, List.count_cons, hg]
      · simp [List.filter_cons, ho, ih]

theorem count_flatMap_broadcast (s : State α) (bs : List (Frame α)) (hbs : bs.Nodup)
    (f : Frame α) (c : Conn) :
    (bs.flatMap (broadcast s)).count (Effect.send c f) =
      if f ∈ bs then
        (s.onlineUsers.filter (fun e => decide (e.2.ws = c) && isOpen s c)).length
      else 0 := by
  induction bs with
  | nil => simp
  | cons g t ih =>
    rw [List.nodup_cons] at hbs
    rw [List.flatMap_cons, List.count_append, count_broadcast, ih hbs.2]
    by_cases hg : g = f
    · subst hg
      simp [hbs.1]
    · have : f ≠ g := fun h => hg h.symm
      simp [hg, this]


theorem handle_login (calcDist : α → α → α → α → α) (s : State α) (ws : Conn) {data : Event α}
    {env : Env α} {u : String} (h : data.loginId env = some u) :
    ∃ user msg, user.id = u ∧
      handle calcDist s ws data env =
        some ((installSession s ws user).1,
          (installSession s ws user).2 ++ [Effect.send ws (Frame.loginSuccess user msg)]
            ++ broadcast (installSession s ws user).1
                (Frame.userJoined user.id user.nickname user.avatar)
            ++ broadcast (installSession s ws user).1
                (Frame.onlineCount (installSession s ws user).1.onlineUsers.length)) := by
  cases data with
  | login userId nickname phone avatar =>
    simp only [Event.loginId, Option.some.injEq] at h
    exact ⟨_, none, h, rfl⟩
  | authLogin result =>
    cases result with
    | success dbUser message =>
      simp only [Event.loginId, Option.some.injEq] at h
      exact ⟨_, some message, h, rfl⟩
    | failure message => simp [Event.loginId] at h
  | _ => simp [Event.loginId] at h

theorem step_notOpen_mono {calcDist : α → α → α → α → α} {s s1 : State α} {i : Input α}
    {env : Env α} {effs : List (Effect α)} (h : step calcDist s i env = some (s1, effs)) :
    ∀ c ∈ s.notOpen, c ∈ s1.notOpen := by
  intro c hc
  cases i with
  | ws conn data =>
    simp only [step] at h
    cases data with
    | authLogin result =>
      cases result <;> simp only [handle, installSession, Option.some.injEq, Prod.mk.injEq] at h
        <;> obtain ⟨rfl, -⟩ := h
      · dsimp only
        split <;> simp [hc]
      · exact hc
    | login userId nickname phone avatar =>
      simp only [handle, installSession, Option.some.injEq, Prod.mk.injEq] at h
      obtain ⟨rfl, -⟩ := h
      dsimp only
      split <;> simp [hc]
    | adminCommand password command =>
      simp only [handle, adminCommand, clearAllBubbles, Option.some.injEq] at h
      split_ifs at h <;> cases h <;> exact hc
    | position lat lng =>
      simp only [handle] at h
      split at h
      · cases h; exact hc
      · split at h
        · cases h; exact hc
        · exact absurd h (by simp)
    | close =>
      simp only [handle] at h
      split at h <;> cases h <;> simp [hc]
    | _ =>
      simp only [handle, clearAllBubbles] at h
      first
        | (cases h; exact hc)
        | (split at h <;> first | (cases h; exact hc) | (split at h <;> cases h <;> exact hc))
  | sweep => simp only [step, sweepExpired, Option.some.injEq, Prod.mk.injEq] at h; obtain ⟨rfl, -⟩ := h; exact hc
  | httpClear password initiator =>
    simp only [step, httpClearBubbles, clearAllBubbles, Option.some.injEq] at h
    split_ifs at h <;> cases h <;> exact hc
  | readyStateChange conn =>
    simp only [step, Option.some.injEq, Prod.mk.injEq] at h; obtain ⟨rfl, -⟩ := h; simp [hc]


theorem shape_direct (s : State α) (effs : List (Effect α))
    (h : ∀ c f, Effect.send c f ∈ effs → f.isBroadcast = false) : BroadcastShape s effs :=
  ⟨effs, [], [], by simp, h, by simp, by simp, List.nodup_nil⟩

theorem shape_one (s : State α) (f : Frame α) (post : List (Effect α)) (hf : f.isBroadcast = true)
    (h : ∀ c f, Effect.send c f ∈ post → f.isBroadcast = false) :
    BroadcastShape s (broadcast s f ++ post) :=
  ⟨[], [f], post, by simp, by simp, h, by simpa using hf, List.nodup_singleton f⟩

theorem shape_two (s : State α) (pre : List (Effect α)) (f g : Frame α)
    (hf : f.isBroadcast = true) (hg : g.isBroadcast = true) (hfg : f ≠ g)
    (h : ∀ c f, Effect.send c f ∈ pre → f.isBroadcast = false) :
    BroadcastShape s (pre ++ broadcast s f ++ broadcast s g) :=
  ⟨pre, [f, g], [], by simp, h, by simp, by simp [hf, hg], by simp [hfg]⟩

theorem shape_bcast (s : State α) (f : Frame α) (hf : f.isBroadcast = true) :
    BroadcastShape s (broadcast s f) :=
  ⟨[], [f], [], by simp, by simp, by simp, by simpa using hf, List.nodup_singleton f⟩

theorem shape_bcast_two (s : State α) (f g : Frame α)
    (hf : f.isBroadcast = true) (hg : g.isBroadcast = true) (hfg : f ≠ g) :
    BroadcastShape s (broadcast s f ++ broadcast s g) :=
  ⟨[], [f, g], [], by simp, by simp, by simp, by simp [hf, hg], by simp [hfg]⟩

theorem installSession_sends (s : State α) (ws : Conn) (user : User α) (c : Conn) (f : Frame α) :
    Effect.send c f ∉ (installSession s ws user).2 := by
  simp only [installSession]
  split <;> simp

theorem handle_shape {calcDist : α → α → α → α → α} {s s1 : State α} {ws : Conn}
    {data : Event α} {env : Env α} {effs : List (Effect α)}
    (h : handle calcDist s ws data env = some (s1, effs)) : BroadcastShape s1 effs := by
  cases data with
  | ping => simp only [handle, Option.some.injEq, Prod.mk.injEq] at h; obtain ⟨rfl, rfl⟩ := h; exact shape_direct _ _ (by simp [Frame.isBroadcast])
  | register success message user =>
    simp only [handle, Option.some.injEq, Prod.mk.injEq] at h; obtain ⟨rfl, rfl⟩ := h
    exact shape_direct _ _ (by simp [Frame.isBroadcast])
  | authLogin result =>
    cases result with
    | failure message =>
      simp only [handle, Option.some.injEq, Prod.mk.injEq] at h; obtain ⟨rfl, rfl⟩ := h
      exact shape_direct _ _ (by simp [Frame.isBroadcast])
    | success dbUser message =>
      simp only [handle, Option.some.injEq, Prod.mk.injEq] at h; obtain ⟨rfl, rfl⟩ := h
      refine shape_two _ _ _ _ rfl rfl (by simp) ?_
      intro c f hm
      rcases List.mem_append.1 hm with hm | hm
      · exact absurd hm (installSession_sends _ _ _ _ _)
      · simp only [List.mem_singleton, Effect.send.injEq] at hm
        rw [hm.2]; rfl
  | login userId nickname phone avatar =>
    simp only [handle, Option.some.injEq, Prod.mk.injEq] at h; obtain ⟨rfl, rfl⟩ := h
    refine shape_two _ _ _ _ rfl rfl (by simp) ?_
    intro c f hm
    rcases List.mem_append.1 hm with hm | hm
    · exact absurd hm (installSession_sends _ _ _ _ _)
    · simp only [List.mem_singleton, Effect.send.injEq] at hm
      rw [hm.2]; rfl
  | adminCommand password command =>
    simp only [handle, adminCommand, Option.some.injEq] at h
    split_ifs at h <;> simp only [Prod.mk.injEq] at h <;> obtain ⟨rfl, rfl⟩ := h
    · exact shape_direct _ _ (by simp [Frame.isBroadcast])
    · exact shape_one _ _ _ rfl (by simp [Frame.isBroadcast])
    · exact shape_direct _ _ (by simp [Frame.isBroadcast])
    · exact shape_direct _ _ (by simp [Frame.isBroadcast])
    · exact shape_direct _ _ (by simp [Frame.isBroadcast])
  | clearBubbles clearAll =>
    simp only [handle] at h
    split at h
    · simp only [Option.some.injEq, Prod.mk.injEq] at h; obtain ⟨rfl, rfl⟩ := h
      exact shape_direct _ _ (by simp [Frame.isBroadcast])
    · split_ifs at h <;> simp only [Option.some.injEq, Prod.mk.injEq] at h <;> obtain ⟨rfl, rfl⟩ := h
      · exact shape_one _ _ _ rfl (by simp [Frame.isBroadcast])
      · exact shape_direct _ _ (by simp)
  | position lat lng =>
    simp only [handle] at h
    split at h
    · simp only [Option.some.injEq, Prod.mk.injEq] at h; obtain ⟨rfl, rfl⟩ := h
      exact shape_direct _ _ (by simp)
    · split at h
      · simp only [Option.some.injEq, Prod.mk.injEq] at h; obtain ⟨rfl, rfl⟩ := h
        exact shape_bcast _ _ rfl
      · exact absurd h (by simp)
  | publicChat msg =>
    simp only [handle] at h
    split at h <;> simp only [Option.some.injEq, Prod.mk.injEq] at h <;> obtain ⟨rfl, rfl⟩ := h
    · exact shape_direct _ _ (by simp)
    · exact shape_bcast _ _ rfl
  | chatroomMsg msg roomCode =>
    simp only [handle] at h
    split at h <;> simp only [Option.some.injEq, Prod.mk.injEq] at h <;> obtain ⟨rfl, rfl⟩ := h
    · exact shape_direct _ _ (by simp)
    · exact shape_bcast _ _ rfl
  | privateChat toId msg =>
    simp only [handle] at h
    split at h <;> simp only [Option.some.injEq, Prod.mk.injEq] at h <;> obtain ⟨rfl, rfl⟩ := h
    · exact shape_direct _ _ (by simp)
    · refine shape_direct _ _ ?_
      intro c f hm
      rcases List.mem_append.1 hm with hm | hm
      · split at hm
        · split_ifs at hm
          · simp only [List.mem_singleton, Effect.send.injEq] at hm; rw [hm.2]; rfl
          · simp at hm
        · simp at hm
      · simp only [List.mem_singleton, Effect.send.injEq] at hm; rw [hm.2]; rfl
  | publishBubble bubbleType roomCode title content lat lng activityTags duration =>
    simp only [handle] at h
    split at h <;> simp only [Option.some.injEq, Prod.mk.injEq] at h <;> obtain ⟨rfl, rfl⟩ := h
    · exact shape_direct _ _ (by simp)
    · exact shape_one _ _ _ rfl (by simp [Frame.isBroadcast])
  | queryBubbles lat lng radius =>
    simp only [handle] at h
    split at h <;> simp only [Option.some.injEq, Prod.mk.injEq] at h <;> obtain ⟨rfl, rfl⟩ := h
    · exact shape_direct _ _ (by simp)
    · exact shape_direct _ _ (by simp [Frame.isBroadcast])
  | other =>
    simp only [handle, Option.some.injEq, Prod.mk.injEq] at h; obtain ⟨rfl, rfl⟩ := h
    exact shape_direct _ _ (by simp)
  | close =>
    simp only [handle] at h
    split at h <;> simp only [Option.some.injEq, Prod.mk.injEq] at h <;> obtain ⟨rfl, rfl⟩ := h
    · exact shape_direct _ _ (by simp)
    · exact shape_bcast_two _ _ _ rfl rfl (by simp)

theorem step_shape {calcDist : α → α → α → α → α} {s s1 : State α} {i : Input α}
    {env : Env α} {effs : List (Effect α)} (h : step calcDist s i env = some (s1, effs)) :
    BroadcastShape s1 effs := by
  cases i with
  | ws conn data => exact handle_shape h
  | sweep =>
    simp only [step, Option.some.injEq, Prod.mk.injEq] at h; obtain ⟨rfl, rfl⟩ := h
    exact shape_direct _ _ (by simp)
  | httpClear password initiator =>
    simp only [step, httpClearBubbles, Option.some.injEq] at h
    split_ifs at h <;> simp only [Prod.mk.injEq] at h <;> obtain ⟨rfl, rfl⟩ := h
    · exact shape_direct _ _ (by simp)
    · exact shape_bcast _ _ rfl
  | readyStateChange conn =>
    simp only [step, Option.some.injEq, Prod.mk.injEq] at h; obtain ⟨rfl, rfl⟩ := h
    exact shape_direct _ _ (by simp)


theorem shape_open {s : State α} {effs : List (Effect α)} (hs : BroadcastShape s effs)
    {c : Conn} {f : Frame α} (hf : f.isBroadcast = true) (hm : Effect.send c f ∈ effs) :
    isOpen s c = true ∧ ∃ e ∈ s.onlineUsers, e.2.ws = c := by
  obtain ⟨pre, bs, post, rfl, hpre, hpost, -, -⟩ := hs
  simp only [List.mem_append, List.mem_flatMap] at hm
  rcases hm with (hm | ⟨g, -, hm⟩) | hm
  · rw [hpre c f hm] at hf; exact absurd hf (by simp)
  · obtain ⟨e, he, ho, hx⟩ := mem_broadcast.1 hm
    simp only [Effect.send.injEq] at hx
    rw [hx.1]
    exact ⟨ho, e, he, rfl⟩
  · rw [hpost c f hm] at hf; exact absurd hf (by simp)

theorem shape_count {s : State α} {effs : List (Effect α)} (hs : BroadcastShape s effs)
    {c0 : Conn} {f : Frame α} (hf : f.isBroadcast = true) (hm : Effect.send c0 f ∈ effs)
    (c : Conn) :
    effs.count (Effect.send c f) =
      (s.onlineUsers.filter (fun e => decide (e.2.ws = c) && isOpen s c)).length := by
  obtain ⟨pre, bs, post, rfl, hpre, hpost, -, hnd⟩ := hs
  have hfb : f ∈ bs := by
    simp only [List.mem_append, List.mem_flatMap] at hm
    rcases hm with (hm | ⟨g, hg, hm⟩) | hm
    · rw [hpre c0 f hm] at hf; exact absurd hf (by simp)
    · obtain ⟨e, -, -, hx⟩ := mem_broadcast.1 hm
      simp only [Effect.send.injEq] at hx
      rw [hx.2]; exact hg
    · rw [hpost c0 f hm] at hf; exact absurd hf (by simp)
  have h1 : pre.count (Effect.send c f) = 0 := by
    rw [List.count_eq_zero]
    intro hm1
    rw [hpre c f hm1] at hf; exact absurd hf (by simp)
  have h2 : post.count (Effect.send c f) = 0 := by
    rw [List.count_eq_zero]
    intro hm1
    rw [hpost c f hm1] at hf; exact absurd hf (by simp)
  rw [List.count_append, List.count_append, h1, h2, count_flatMap_broadcast s bs hnd, if_pos hfb]
  simp

/-- A connection that has left `OPEN` stays so, and no broadcast reaches it. -/
theorem run_closed {calcDist : α → α → α → α → α} {c : Conn} :
    ∀ (ins : List (Input α × Env α)) {s s1 : State α} {effs : List (Effect α)},
      c ∈ s.notOpen → run calcDist s ins = some (s1, effs) →
      c ∈ s1.notOpen ∧ ∀ f, f.isBroadcast = true → Effect.send c f ∉ effs := by
  intro ins
  induction ins with
  | nil =>
    intro s s1 effs hc h
    simp only [run, Option.some.injEq, Prod.mk.injEq] at h
    obtain ⟨rfl, rfl⟩ := h
    exact ⟨hc, by simp⟩
  | cons x rest ih =>
    intro s s1 effs hc h
    obtain ⟨i, env⟩ := x
    simp only [run] at h
    cases hstep : step calcDist s i env with
    | none => rw [hstep] at h; exact absurd h (by simp)
    | some r1 =>
      rw [hstep] at h
      obtain ⟨sa, ea⟩ := r1
      cases hrest : run calcDist sa rest with
      | none => simp only [hrest] at h; exact absurd h (by simp)
      | some r2 =>
        simp only [hrest, Option.some.injEq, Prod.mk.injEq] at h
        obtain ⟨rfl, rfl⟩ := h
        have hca := step_notOpen_mono hstep c hc
        obtain ⟨h1, h2⟩ := ih hca hrest
        refine ⟨h1, fun f hf hm => ?_⟩
        rcases List.mem_append.1 hm with hm | hm
        · have ho := (shape_open (step_shape hstep) hf hm).1
          simp only [isOpen, decide_eq_true_eq] at ho
          exact ho hca
        · exact h2 f hf hm

theorem not_mem_broadcast_of_closed {s : State α} {c : Conn} (hc : c ∈ s.notOpen)
    (f g : Frame α) : Effect.send c f ∉ broadcast s g := by
  intro hm
  obtain ⟨e, -, ho, hx⟩ := mem_broadcast.1 hm
  simp only [Effect.send.injEq] at hx
  simp only [isOpen, decide_eq_true_eq] at ho
  exact ho (hx.1 ▸ hc)


theorem installSession_of_get {s : State α} (ws : Conn) {old : Conn} {user : User α}
    (h : JSMap.get s.userSocket user.id = some old) :
    (installSession s ws user).2 = [Effect.close old] ∧
      (installSession s ws user).1.notOpen = old :: s.notOpen := by
  simp only [installSession, h, and_self]

end Registry

/-- C4: from a state whose `onlineUsers` keys are distinct, a login as `u` on
`c1` followed by a login as `u` on `c2` (each a `login` message or a successful
`authLogin`) calls `close` on `c1`, leaves in `onlineUsers` exactly one session
under `u`, bound to `c2`, and neither the second login nor any later run of the
server broadcasts a frame to `c1`. -/
theorem relogin_replaces_session {α : Type} [LinearOrderedField α] [FloorRing α]
    (calcDist : α → α → α → α → α) (s : State α) (u : String) (c1 c2 : Conn)
    (d1 d2 : Event α) (env1 env2 : Env α) (hk : KeysNodup s.onlineUsers)
    (h1 : d1.loginId env1 = some u) (h2 : d2.loginId env2 = some u) (_ : c1 ≠ c2) :
    ∃ s1 f1 s2 f2,
      handle calcDist s c1 d1 env1 = some (s1, f1) ∧
      handle calcDist s1 c2 d2 env2 = some (s2, f2) ∧
      Effect.close c1 ∈ f2 ∧
      (s2.onlineUsers.filter (fun e => decide (e.1 = u))).map (fun e => e.2.ws) = [c2] ∧
      (∀ f, f.isBroadcast = true → Effect.send c1 f ∉ f2) ∧
      ∀ ins s3 f3, run calcDist s2 ins = some (s3, f3) →
        (∀ f, f.isBroadcast = true → Effect.send c1 f ∉ f3) ∧
        ∀ f g, Effect.send c1 f ∉ broadcast s3 g := by
  obtain ⟨user1, msg1, hid1, hh1⟩ := handle_login calcDist s c1 h1
  obtain ⟨user2, msg2, hid2, hh2⟩ :=
    handle_login calcDist (installSession s c1 user1).1 c2 h2
  have hget : JSMap.get (installSession s c1 user1).1.userSocket user2.id = some c1 := by
    rw [hid2, ← hid1]
    exact JSMap.get_set_self _ _ _
  obtain ⟨hcl, hno⟩ := installSession_of_get c2 hget
  have hclosed : c1 ∈ (installSession (installSession s c1 user1).1 c2 user2).1.notOpen := by
    rw [hno]; exact List.mem_cons_self _ _
  refine ⟨_, _, _, _, hh1, hh2, ?_, ?_, ?_, ?_⟩
  · rw [hcl]; simp
  · have hk1 : KeysNodup (installSession s c1 user1).1.onlineUsers :=
      JSMap.keysNodup_set hk _ _
    have hf := JSMap.filter_key_set hk1 user2.id
      ({ user := { oid := (installSession s c1 user1).1.nextOid, val := user2 }, ws := c2 } :
        Session α)
    rw [hid2] at hf
    show List.map _ (List.filter _ (JSMap.set _ user2.id _)) = _
    rw [hid2, hf]
    rfl
  · intro f hf hm
    have ho := (shape_open (handle_shape hh2) hf hm).1
    simp only [isOpen, decide_eq_true_eq] at ho
    exact ho hclosed
  · intro ins s3 f3 hrun
    obtain ⟨hc3, hnb⟩ := run_closed ins hclosed hrun
    exact ⟨hnb, fun f g => not_mem_broadcast_of_closed hc3 f g⟩

/-- C4 (witness): two `login` messages under the id `u`, on connections 1 and
2, from the initial state. -/
theorem relogin_replaces_session_witness :
    KeysNodup (State.init : State ℝ).onlineUsers ∧
    (Event.login (some "u") (some "n") none (some "a") : Event ℝ).loginId ⟨0, 0, "", "", 0⟩
      = some "u" ∧
    (1 : Conn) ≠ 2 ∧
    ∃ s1 f1 s2 f2,
      handle calculateDistance (State.init : State ℝ) 1
        (Event.login (some "u") (some "n") none (some "a")) ⟨0, 0, "", "", 0⟩ = some (s1, f1) ∧
      handle calculateDistance s1 2
        (Event.login (some "u") (some "n") none (some "a")) ⟨0, 0, "", "", 0⟩ = some (s2, f2) ∧
      Effect.close 1 ∈ f2 ∧
      (s2.onlineUsers.filter (fun e => decide (e.1 = "u"))).map (fun e => e.2.ws) = [2] ∧
      (∀ f, f.isBroadcast = true → Effect.send 1 f ∉ f2) ∧
      ∀ ins s3 f3, run calculateDistance s2 ins = some (s3, f3) →
        (∀ f, f.isBroadcast = true → Effect.send 1 f ∉ f3) ∧
        ∀ f g, Effect.send 1 f ∉ broadcast s3 g :=
  ⟨List.nodup_nil, by decide, by decide,
    relogin_replaces_session calculateDistance State.init "u" 1 2 _ _ _ _ List.nodup_nil
      (by decide) (by decide) (by decide)⟩

/-- C5 (the code at the failing input): after a login as `u` on connection 1
and a login as `u` on connection 2, `socketUser` still maps connection 1 to the
user `u` while `userSocket` maps `u` to connection 2, so the two maps are not
inverse to each other. -/
theorem relogin_breaks_registry_inverse :
    ∃ s effs, run calculateDistance (State.init : State ℝ) reloginScenario = some (s, effs) ∧
      (JSMap.get s.socketUser 1).map (fun user => user.val.id) = some "u" ∧
      JSMap.get s.userSocket "u" = some 2 ∧
      ¬ s.RegistryInverse := by
  refine ⟨_, _, rfl, rfl, rfl, ?_⟩
  intro hinv
  have h := (hinv 1 "u").1 ⟨_, rfl, rfl⟩
  revert h
  decide


section EmptyStore

variable {α : Type} [LinearOrderedField α] [FloorRing α]

theorem queryResult_mem_broadcast {s : State α} (g : Frame α) {c : Conn}
    {hits : List (QueryHit α)} (hm : Effect.send c (Frame.queryResult hits) ∈ broadcast s g) :
    g = Frame.queryResult hits := by
  obtain ⟨e, -, -, hx⟩ := mem_broadcast.1 hm
  simp only [Effect.send.injEq] at hx
  exact hx.2.symm

/-- From an empty store, an input other than `publishBubble` leaves the store
empty, and a `queryResult` frame it sends is empty. -/
theorem step_empty_store {calcDist : α → α → α → α → α} {s s1 : State α} {i : Input α}
    {env : Env α} {effs : List (Effect α)} (hb : s.bubbles = [])
    (hp : i.isPublish = false) (h : step calcDist s i env = some (s1, effs)) :
    s1.bubbles = [] ∧ ∀ c hits, Effect.send c (Frame.queryResult hits) ∈ effs → hits = [] := by
  cases i with
  | ws conn data =>
    simp only [step] at h
    cases data with
    | ping =>
      simp only [handle, Option.some.injEq, Prod.mk.injEq] at h; obtain ⟨rfl, rfl⟩ := h
      exact ⟨hb, by simp⟩
    | register success message user =>
      simp only [handle, Option.some.injEq, Prod.mk.injEq] at h; obtain ⟨rfl, rfl⟩ := h
      exact ⟨hb, by simp⟩
    | authLogin result =>
      cases result with
      | failure message =>
        simp only [handle, Option.some.injEq, Prod.mk.injEq] at h; obtain ⟨rfl, rfl⟩ := h
        exact ⟨hb, by simp⟩
      | success dbUser message =>
        simp only [handle, Option.some.injEq, Prod.mk.injEq] at h; obtain ⟨rfl, rfl⟩ := h
        refine ⟨hb, fun c hits hm => ?_⟩
        simp only [List.mem_append, List.mem_singleton, Effect.send.injEq, false_and,
          or_false, reduceCtorEq, and_false] at hm
        rcases hm with (hm | hm) | hm
        · exact absurd hm (installSession_sends _ _ _ _ _)
        · exact absurd (queryResult_mem_broadcast _ hm) (by simp)
        · exact absurd (queryResult_mem_broadcast _ hm) (by simp)
    | login userId nickname phone avatar =>
      simp only [handle, Option.some.injEq, Prod.mk.injEq] at h; obtain ⟨rfl, rfl⟩ := h
      refine ⟨hb, fun c hits hm => ?_⟩
      simp only [List.mem_append, List.mem_singleton, Effect.send.injEq, false_and,
        or_false, reduceCtorEq, and_false] at hm
      rcases hm with (hm | hm) | hm
      · exact absurd hm (installSession_sends _ _ _ _ _)
      · exact absurd (queryResult_mem_broadcast _ hm) (by simp)
      · exact absurd (queryResult_mem_broadcast _ hm) (by simp)
    | adminCommand password command =>
      simp only [handle, adminCommand, Option.some.injEq] at h
      split_ifs at h <;> simp only [Prod.mk.injEq] at h <;> obtain ⟨rfl, rfl⟩ := h
      · exact ⟨hb, by simp⟩
      · refine ⟨rfl, fun c hits hm => ?_⟩
        simp only [List.mem_append, List.mem_singleton, Effect.send.injEq, false_and,
          or_false, reduceCtorEq, and_false] at hm
        exact absurd (queryResult_mem_broadcast _ hm) (by simp)
      · exact ⟨hb, by simp⟩
      · exact ⟨hb, by simp⟩
      · exact ⟨hb, by simp⟩
    | clearBubbles clearAll =>
      simp only [handle] at h
      split at h
      · simp only [Option.some.injEq, Prod.mk.injEq] at h; obtain ⟨rfl, rfl⟩ := h
        exact ⟨hb, by simp⟩
      · split_ifs at h <;> simp only [Option.some.injEq, Prod.mk.injEq] at h <;>
          obtain ⟨rfl, rfl⟩ := h
        · refine ⟨rfl, fun c hits hm => ?_⟩
          simp only [List.mem_append, List.mem_singleton, Effect.send.injEq, false_and,
            or_false, reduceCtorEq, and_false] at hm
          exact absurd (queryResult_mem_broadcast _ hm) (by simp)
        · exact ⟨hb, by simp⟩
    | position lat lng =>
      simp only [handle] at h
      split at h
      · simp only [Option.some.injEq, Prod.mk.injEq] at h; obtain ⟨rfl, rfl⟩ := h
        exact ⟨hb, by simp⟩
      · split at h
        · simp only [Option.some.injEq, Prod.mk.injEq] at h; obtain ⟨rfl, rfl⟩ := h
          exact ⟨hb, fun c hits hm => absurd (queryResult_mem_broadcast _ hm) (by simp)⟩
        · exact absurd h (by simp)
    | publicChat msg =>
      simp only [handle] at h
      split at h <;> simp only [Option.some.injEq, Prod.mk.injEq] at h <;> obtain ⟨rfl, rfl⟩ := h
      · exact ⟨hb, by simp⟩
      · exact ⟨hb, fun c hits hm => absurd (queryResult_mem_broadcast _ hm) (by simp)⟩
    | chatroomMsg msg roomCode =>
      simp only [handle] at h
      split at h <;> simp only [Option.some.injEq, Prod.mk.injEq] at h <;> obtain ⟨rfl, rfl⟩ := h
      · exact ⟨hb, by simp⟩
      · exact ⟨hb, fun c hits hm =>
          absurd (queryResult_mem_broadcast (Frame.chatroomMsg _ _ _ _ _ _) hm) (by simp)⟩
    | privateChat toId msg =>
      simp only [handle] at h
      split at h <;> simp only [Option.some.injEq, Prod.mk.injEq] at h <;> obtain ⟨rfl, rfl⟩ := h
      · exact ⟨hb, by simp⟩
      · refine ⟨hb, fun c hits hm => ?_⟩
        rcases List.mem_append.1 hm with hm | hm
        · split at hm
          · split_ifs at hm
            · simp at hm
            · simp at hm
          · simp at hm
        · simp at hm
    | publishBubble bubbleType roomCode title content lat lng activityTags duration =>
      simp [Input.isPublish] at hp
    | queryBubbles lat lng radius =>
      simp only [handle] at h
      split at h <;> simp only [Option.some.injEq, Prod.mk.injEq] at h <;> obtain ⟨rfl, rfl⟩ := h
      · exact ⟨hb, by simp⟩
      · refine ⟨hb, fun c hits hm => ?_⟩
        simp only [List.mem_singleton, Effect.send.injEq, Frame.queryResult.injEq] at hm
        rw [hm.2, hb]
        simp [queryResults, queryFilter]
    | other =>
      simp only [handle, Option.some.injEq, Prod.mk.injEq] at h; obtain ⟨rfl, rfl⟩ := h
      exact ⟨hb, by simp⟩
    | close =>
      simp only [handle] at h
      split at h <;> simp only [Option.some.injEq, Prod.mk.injEq] at h <;> obtain ⟨rfl, rfl⟩ := h
      · exact ⟨hb, by simp⟩
      · refine ⟨hb, fun c hits hm => ?_⟩
        rcases List.mem_append.1 hm with hm | hm
        · exact absurd (queryResult_mem_broadcast _ hm) (by simp)
        · exact absurd (queryResult_mem_broadcast _ hm) (by simp)
  | sweep =>
    simp only [step, sweepExpired, Option.some.injEq, Prod.mk.injEq] at h
    obtain ⟨rfl, rfl⟩ := h
    exact ⟨by simp [hb], by simp⟩
  | httpClear password initiator =>
    simp only [step, httpClearBubbles, Option.some.injEq] at h
    split_ifs at h <;> simp only [Prod.mk.injEq] at h <;> obtain ⟨rfl, rfl⟩ := h
    · exact ⟨hb, by simp⟩
    · exact ⟨rfl, fun c hits hm => absurd (queryResult_mem_broadcast _ hm) (by simp)⟩
  | readyStateChange conn =>
    simp only [step, Option.some.injEq, Prod.mk.injEq] at h; obtain ⟨rfl, rfl⟩ := h
    exact ⟨hb, by simp⟩

theorem run_empty_store {calcDist : α → α → α → α → α} :
    ∀ (ins : List (Input α × Env α)) {s s1 : State α} {effs : List (Effect α)},
      s.bubbles = [] → (∀ x ∈ ins, x.1.isPublish = false) →
      run calcDist s ins = some (s1, effs) →
      s1.bubbles = [] ∧
        ∀ c hits, Effect.send c (Frame.queryResult hits) ∈ effs → hits = [] := by
  intro ins
  induction ins with
  | nil =>
    intro s s1 effs hb _ h
    simp only [run, Option.some.injEq, Prod.mk.injEq] at h
    obtain ⟨rfl, rfl⟩ := h
    exact ⟨hb, by simp⟩
  | cons x rest ih =>
    intro s s1 effs hb hp h
    obtain ⟨i, env⟩ := x
    simp only [run] at h
    cases hstep : step calcDist s i env with
    | none => rw [hstep] at h; exact absurd h (by simp)
    | some r1 =>
      rw [hstep] at h
      obtain ⟨sa, ea⟩ := r1
      cases hrest : run calcDist sa rest with
      | none => simp only [hrest] at h; exact absurd h (by simp)
      | some r2 =>
        simp only [hrest, Option.some.injEq, Prod.mk.injEq] at h
        obtain ⟨rfl, rfl⟩ := h
        obtain ⟨hba, hqa⟩ := step_empty_store hb (hp (i, env) (List.mem_cons_self _ _)) hstep
        obtain ⟨hb2, hq2⟩ := ih hba (fun y hy => hp y (List.mem_cons_of_mem _ hy)) hrest
        refine ⟨hb2, fun c hits hm => ?_⟩
        rcases List.mem_append.1 hm with hm | hm
        · exact hqa c hits hm
        · exact hq2 c hits hm

end EmptyStore


/-- C6 (counterexample): after `staleScenario` the store holds, at time 2000,
one active bubble and one expired bubble that has not been swept;
`clearAllBubbles` returns `clearedCount = 2`, not the number 1 of active
bubbles. -/
theorem clearAllBubbles_counts_expired :
    ∃ s effs, run calculateDistance (State.init : State ℝ) staleScenario = some (s, effs) ∧
      (activeBubbles s 2000).length = 1 ∧
      (clearAllBubbles s "n" ⟨2000, 2000, "", "", 0⟩).2.2.clearedCount = 2 := by
  simp [run, step, handle, staleScenario, State.init, installSession, JSMap.get, JSMap.set,
    broadcast, isOpen, strOr, numOr, activeBubbles, clearAllBubbles]
  norm_num

/-- C6 (amended): `clearAllBubbles` returns as `clearedCount` the number of
bubbles the store holds, expired ones included, and empties the store; after
any further inputs without a `publishBubble`, every `queryResult` sent along
the way is empty and a `queryBubbles` message, whatever its point and radius, is
answered with the empty list (or, from a connection without a session, not at
all). -/
theorem clearAllBubbles_count_and_empty {α : Type} [LinearOrderedField α] [FloorRing α]
    (calcDist : α → α → α → α → α) (s : State α) (initiator : String) (env : Env α)
    (ins : List (Input α × Env α)) (hp : ∀ x ∈ ins, x.1.isPublish = false) :
    (clearAllBubbles s initiator env).2.2.clearedCount = s.bubbles.length ∧
    (clearAllBubbles s initiator env).1.bubbles = [] ∧
    ∀ s1 f1, run calcDist (clearAllBubbles s initiator env).1 ins = some (s1, f1) →
      (∀ c hits, Effect.send c (Frame.queryResult hits) ∈ f1 → hits = []) ∧
      ∀ ws lat lng radius env2, ∃ s2,
        handle calcDist s1 ws (Event.queryBubbles lat lng radius) env2 =
          some (s2,
            if (JSMap.get s1.socketUser ws).isSome then
              [Effect.send ws (Frame.queryResult [])]
            else []) := by
  refine ⟨rfl, rfl, fun s1 f1 hrun => ?_⟩
  obtain ⟨hb, hq⟩ := run_empty_store ins
    (show (clearAllBubbles s initiator env).1.bubbles = [] from rfl) hp hrun
  refine ⟨hq, fun ws lat lng radius env2 => ?_⟩
  cases hu : JSMap.get s1.socketUser ws with
  | none => exact ⟨s1, by simp [handle, hu]⟩
  | some user =>
    refine ⟨{ s1 with stats := { s1.stats with totalQueried := s1.stats.totalQueried + 1 } }, ?_⟩
    rw [handle_queryBubbles lat lng radius env2 hu, hb]
    simp [queryResults, queryFilter]

/-- C6 (witness): clearing `sampleState`, then a position update and a public
chat message. -/
theorem clearAllBubbles_count_and_empty_witness :
    (∀ x ∈ ([(Input.ws 1 (Event.position (some 1) (some 2)), ⟨0, 0, "", "", 0⟩),
        (Input.ws 2 (Event.publicChat (some "hi")), ⟨0, 0, "", "", 0⟩)] :
        List (Input ℝ × Env ℝ)), x.1.isPublish = false) ∧
    ((clearAllBubbles (sampleState : State ℝ) "n" ⟨0, 0, "", "", 0⟩).2.2.clearedCount =
        (sampleState : State ℝ).bubbles.length ∧
      (clearAllBubbles (sampleState : State ℝ) "n" ⟨0, 0, "", "", 0⟩).1.bubbles = [] ∧
      ∀ s1 f1,
        run calculateDistance (clearAllBubbles (sampleState : State ℝ) "n" ⟨0, 0, "", "", 0⟩).1
          [(Input.ws 1 (Event.position (some 1) (some 2)), ⟨0, 0, "", "", 0⟩),
           (Input.ws 2 (Event.publicChat (some "hi")), ⟨0, 0, "", "", 0⟩)] = some (s1, f1) →
        (∀ c hits, Effect.send c (Frame.queryResult hits) ∈ f1 → hits = []) ∧
        ∀ ws lat lng radius env2, ∃ s2,
          handle calculateDistance s1 ws (Event.queryBubbles lat lng radius) env2 =
            some (s2,
              if (JSMap.get s1.socketUser ws).isSome then
                [Effect.send ws (Frame.queryResult [])]
              else [])) :=
  ⟨by simp [Input.isPublish],
    clearAllBubbles_count_and_empty calculateDistance sampleState "n" ⟨0, 0, "", "", 0⟩ _
      (by simp [Input.isPublish])⟩

/-- C7: whenever a turn of the server sends a frame `f` of a broadcast kind
(`userJoined`, `onlineCount`, `userLeft`, `userPosition`, `publicChat`,
`chatroomMsg`, `newBubble`, `bubblesCleared`), every connection `c` is sent as
many copies of `f` as `onlineUsers` then holds sessions bound to `c` with `c`
open: one copy per session with an open connection, none to a connection
without a session. -/
theorem broadcast_one_copy_per_open_session {α : Type} [LinearOrderedField α] [FloorRing α]
    (calcDist : α → α → α → α → α) (s s1 : State α) (i : Input α) (env : Env α)
    (effs : List (Effect α)) (h : step calcDist s i env = some (s1, effs))
    (f : Frame α) (hf : f.isBroadcast = true) (c0 : Conn) (h0 : Effect.send c0 f ∈ effs) :
    ∀ c, effs.count (Effect.send c f) =
      (s1.onlineUsers.filter (fun e => decide (e.2.ws = c) && isOpen s1 c)).length :=
  fun c => shape_count (step_shape h) hf h0 c

/-- C7 (witness): a `chatroomMsg` from connection 1 in `sampleState` reaches
connections 1 and 2 once each. -/
theorem broadcast_one_copy_per_open_session_witness :
    step calculateDistance (sampleState : State ℝ)
      (Input.ws 1 (Event.chatroomMsg (some "hi") (some "room"))) ⟨0, 0, "", "", 0⟩ =
      some ({ (sampleState : State ℝ) with stats := ⟨2, 0, 1, none, none⟩ },
        [Effect.send 1 sampleChat, Effect.send 2 sampleChat]) ∧
    (sampleChat : Frame ℝ).isBroadcast = true ∧
    Effect.send 1 sampleChat ∈
      ([Effect.send 1 sampleChat, Effect.send 2 sampleChat] : List (Effect ℝ)) ∧
    ∀ c, ([Effect.send 1 sampleChat, Effect.send 2 sampleChat] : List (Effect ℝ)).count
          (Effect.send c sampleChat) =
      (({ (sampleState : State ℝ) with stats := ⟨2, 0, 1, none, none⟩ } :
          State ℝ).onlineUsers.filter
        (fun e => decide (e.2.ws = c) &&
          isOpen ({ (sampleState : State ℝ) with stats := ⟨2, 0, 1, none, none⟩ } : State ℝ)
            c)).length :=
  ⟨rfl, rfl, List.mem_cons_self _ _,
    broadcast_one_copy_per_open_session calculateDistance sampleState
      { (sampleState : State ℝ) with stats := ⟨2, 0, 1, none, none⟩ }
      (Input.ws 1 (Event.chatroomMsg (some "hi") (some "room"))) ⟨0, 0, "", "", 0⟩
      [Effect.send 1 sampleChat, Effect.send 2 sampleChat] rfl sampleChat rfl 1
      (List.mem_cons_self _ _)⟩


section RegistryInvariant

variable {α : Type} [LinearOrderedField α] [FloorRing α]

theorem userSocket_of_registryOk {s : State α} (h : s.RegistryOk) (u : String) :
    JSMap.get s.userSocket u = (JSMap.get s.onlineUsers u).map (fun x => x.ws) := by
  rw [h.2]
  exact JSMap.get_map s.onlineUsers u (fun x => x.ws)

theorem init_registryOk : (State.init : State α).RegistryOk :=
  ⟨List.nodup_nil, rfl⟩

theorem registryOk_congr {s s1 : State α} (h : s.RegistryOk)
    (h1 : s1.onlineUsers = s.onlineUsers) (h2 : s1.userSocket = s.userSocket) :
    s1.RegistryOk := by
  unfold State.RegistryOk at h ⊢
  rw [h1, h2]; exact h

theorem installSession_registryOk {s : State α} (h : s.RegistryOk) (ws : Conn) (user : User α) :
    (installSession s ws user).1.RegistryOk := by
  refine ⟨JSMap.keysNodup_set h.1 _ _, ?_⟩
  show JSMap.set s.userSocket user.id ws = _
  rw [h.2]
  exact (JSMap.map_set s.onlineUsers user.id
    ({ user := { oid := s.nextOid, val := user }, ws := ws } : Session α) (fun x => x.ws)).symm

theorem setPosition_registryOk {s : State α} (h : s.RegistryOk) (oid : Nat)
    (lat lng : Option α) : (setPosition s oid lat lng).RegistryOk := by
  obtain ⟨hk, hu⟩ := h
  refine ⟨?_, ?_⟩
  · unfold KeysNodup at hk ⊢
    have : (setPosition s oid lat lng).onlineUsers.map Prod.fst = s.onlineUsers.map Prod.fst := by
      simp only [setPosition, List.map_map]
      apply List.map_congr_left
      intro e _
      simp only [Function.comp]
      split <;> rfl
    rw [this]; exact hk
  · show s.userSocket = _
    rw [hu]
    simp only [setPosition, List.map_map]
    apply List.map_congr_left
    intro e _
    simp only [Function.comp]
    split <;> rfl

theorem step_registryOk {calcDist : α → α → α → α → α} {s s1 : State α} {i : Input α}
    {env : Env α} {effs : List (Effect α)} (hr : s.RegistryOk)
    (h : step calcDist s i env = some (s1, effs)) : s1.RegistryOk := by
  cases i with
  | ws conn data =>
    simp only [step] at h
    cases data with
    | authLogin result =>
      cases result <;> simp only [handle, Option.some.injEq, Prod.mk.injEq] at h
        <;> obtain ⟨rfl, -⟩ := h
      · exact installSession_registryOk hr _ _
      · exact hr
    | login userId nickname phone avatar =>
      simp only [handle, Option.some.injEq, Prod.mk.injEq] at h
      obtain ⟨rfl, -⟩ := h
      exact installSession_registryOk hr _ _
    | adminCommand password command =>
      simp only [handle, adminCommand, clearAllBubbles, Option.some.injEq] at h
      split_ifs at h <;> cases h <;> exact registryOk_congr hr rfl rfl
    | position lat lng =>
      simp only [handle] at h
      split at h
      · cases h; exact hr
      · split at h
        · cases h; exact setPosition_registryOk hr _ _ _
        · exact absurd h (by simp)
    | close =>
      simp only [handle] at h
      split at h <;> simp only [Option.some.injEq, Prod.mk.injEq] at h <;> obtain ⟨rfl, -⟩ := h
      · exact registryOk_congr hr rfl rfl
      · refine ⟨JSMap.keysNodup_delete hr.1 _, ?_⟩
        show JSMap.delete s.userSocket _ = _
        rw [hr.2]
        exact (JSMap.map_delete s.onlineUsers _ (fun x => x.ws)).symm
    | _ =>
      simp only [handle, clearAllBubbles] at h
      first
        | (cases h; exact registryOk_congr hr rfl rfl)
        | (split at h <;> first
            | (cases h; exact registryOk_congr hr rfl rfl)
            | (split at h <;> cases h <;> exact registryOk_congr hr rfl rfl))
  | sweep =>
    simp only [step, sweepExpired, Option.some.injEq, Prod.mk.injEq] at h
    obtain ⟨rfl, -⟩ := h; exact registryOk_congr hr rfl rfl
  | httpClear password initiator =>
    simp only [step, httpClearBubbles, clearAllBubbles, Option.some.injEq] at h
    split_ifs at h <;> cases h <;> exact registryOk_congr hr rfl rfl
  | readyStateChange conn =>
    simp only [step, Option.some.injEq, Prod.mk.injEq] at h
    obtain ⟨rfl, -⟩ := h; exact registryOk_congr hr rfl rfl

/-- Every state the server reaches from a state with a well-formed registry
(the initial state is one) has a well-formed registry. -/
theorem run_registryOk {calcDist : α → α → α → α → α} :
    ∀ (ins : List (Input α × Env α)) {s s1 : State α} {effs : List (Effect α)},
      s.RegistryOk → run calcDist s ins = some (s1, effs) → s1.RegistryOk := by
  intro ins
  induction ins with
  | nil =>
    intro s s1 effs hr h
    simp only [run, Option.some.injEq, Prod.mk.injEq] at h
    obtain ⟨rfl, -⟩ := h
    exact hr
  | cons x rest ih =>
    intro s s1 effs hr h
    obtain ⟨i, env⟩ := x
    simp only [run] at h
    cases hstep : step calcDist s i env with
    | none => rw [hstep] at h; exact absurd h (by simp)
    | some r1 =>
      rw [hstep] at h
      obtain ⟨sa, ea⟩ := r1
      cases hrest : run calcDist sa rest with
      | none => simp only [hrest] at h; exact absurd h (by simp)
      | some r2 =>
        simp only [hrest, Option.some.injEq, Prod.mk.injEq] at h
        obtain ⟨rfl, -⟩ := h
        exact ih (step_registryOk hr hstep) hrest

end RegistryInvariant

/-- C8 (counterexample): after two logins on connection 1, as `u` and then as
`v`, the sessions `u` and `v` are both in `onlineUsers`, both bound to the open
connection 1; a `privateChat` from connection 1 (user `v`) to `u` sends two
frames to connection 1, the connection of the addressee. -/
theorem privateChat_shared_connection_two_frames :
    ∃ s effs sessA sessB s1 effs1,
      run calculateDistance (State.init : State ℝ) sharedConnScenario = some (s, effs) ∧
      JSMap.get s.onlineUsers "v" = some sessA ∧ JSMap.get s.onlineUsers "u" = some sessB ∧
      sessA ≠ sessB ∧ sessA.ws = 1 ∧ sessB.ws = 1 ∧ isOpen s 1 = true ∧
      JSMap.get s.socketUser 1 = some sessA.user ∧
      handle calculateDistance s 1 (Event.privateChat (some "u") (some "hi"))
        ⟨5, 5, "", "", 0⟩ = some (s1, effs1) ∧
      framesTo effs1 sessB.ws =
        [Frame.privateChat "m" "v" (some "u") "a" (some "hi") 5,
         Frame.privateChat "m" "v" (some "u") "a" (some "hi") 5] := by
  refine ⟨_, _, _, _, _, _, rfl, rfl, rfl, ?_, rfl, rfl, rfl, rfl, rfl, rfl⟩
  intro h
  have := congrArg (fun x => x.user.oid) h
  revert this
  decide

/-- C8 (amended): in a state with a well-formed registry, let `wsA` be a
connection with a session and `toId` a user id.  If `toId` is online on an
open connection other than `wsA`, a `privateChat` from `wsA` to `toId` sends
exactly one `privateChat` frame to that connection, exactly one identical frame
to `wsA`, and none to any other connection; if `toId` has no session, the only
frame sent is the single echo to `wsA`. -/
theorem privateChat_forward_and_echo {α : Type} [LinearOrderedField α] [FloorRing α]
    (calcDist : α → α → α → α → α) (s : State α) (wsA : Conn) (userA : UserObj α)
    (toId : String) (msg : Option String) (env : Env α)
    (hreg : s.RegistryOk) (hA : JSMap.get s.socketUser wsA = some userA) :
    (∀ sessB, JSMap.get s.onlineUsers toId = some sessB → isOpen s sessB.ws = true →
      sessB.ws ≠ wsA →
      ∃ s1 effs,
        handle calcDist s wsA (Event.privateChat (some toId) msg) env = some (s1, effs) ∧
        framesTo effs sessB.ws =
          [Frame.privateChat userA.val.nickname userA.val.id (some toId) userA.val.avatar msg
            env.now] ∧
        framesTo effs wsA =
          [Frame.privateChat userA.val.nickname userA.val.id (some toId) userA.val.avatar msg
            env.now] ∧
        ∀ c, c ≠ sessB.ws → c ≠ wsA → framesTo effs c = []) ∧
    (JSMap.get s.onlineUsers toId = none →
      ∃ s1 effs,
        handle calcDist s wsA (Event.privateChat (some toId) msg) env = some (s1, effs) ∧
        framesTo effs wsA =
          [Frame.privateChat userA.val.nickname userA.val.id (some toId) userA.val.avatar msg
            env.now] ∧
        ∀ c, c ≠ wsA → framesTo effs c = []) := by
  have hus := userSocket_of_registryOk hreg toId
  constructor
  · intro sessB hB hopen hne
    rw [hB] at hus
    refine ⟨_, _, by simp only [handle, hA, hus, Option.map_some']; rfl, ?_, ?_, ?_⟩
    · have : isOpen ({ s with stats := { s.stats with
          totalMessages := s.stats.totalMessages + 1 } } : State α) sessB.ws = true := hopen
      simp [framesTo, this, hne.symm]
    · have : isOpen ({ s with stats := { s.stats with
          totalMessages := s.stats.totalMessages + 1 } } : State α) sessB.ws = true := hopen
      simp [framesTo, this, hne]
    · intro c h1 h2
      have : isOpen ({ s with stats := { s.stats with
          totalMessages := s.stats.totalMessages + 1 } } : State α) sessB.ws = true := hopen
      simp [framesTo, this, Ne.symm h1, Ne.symm h2]
  · intro hB
    rw [hB] at hus
    refine ⟨_, _, by simp only [handle, hA, hus, Option.map_none']; rfl, ?_, ?_⟩
    · simp [framesTo]
    · intro c h1
      simp [framesTo, Ne.symm h1]


/-- C8 (witness): in `sampleState`, user `u` on connection 1 writes to user `v`,
who is online on connection 2. -/
theorem privateChat_forward_and_echo_witness :
    (sampleState : State ℝ).RegistryOk ∧
    JSMap.get (sampleState : State ℝ).socketUser 1
      = some ⟨0, ⟨"u", "n", none, "a", none, none⟩⟩ ∧
    ((∀ sessB, JSMap.get (sampleState : State ℝ).onlineUsers "v" = some sessB →
        isOpen (sampleState : State ℝ) sessB.ws = true → sessB.ws ≠ 1 →
        ∃ s1 effs,
          handle calculateDistance sampleState 1 (Event.privateChat (some "v") (some "hi"))
            ⟨5, 5, "", "", 0⟩ = some (s1, effs) ∧
          framesTo effs sessB.ws = [Frame.privateChat "n" "u" (some "v") "a" (some "hi") 5] ∧
          framesTo effs 1 = [Frame.privateChat "n" "u" (some "v") "a" (some "hi") 5] ∧
          ∀ c, c ≠ sessB.ws → c ≠ 1 → framesTo effs c = []) ∧
      (JSMap.get (sampleState : State ℝ).onlineUsers "v" = none →
        ∃ s1 effs,
          handle calculateDistance sampleState 1 (Event.privateChat (some "v") (some "hi"))
            ⟨5, 5, "", "", 0⟩ = some (s1, effs) ∧
          framesTo effs 1 = [Frame.privateChat "n" "u" (some "v") "a" (some "hi") 5] ∧
          ∀ c, c ≠ 1 → framesTo effs c = [])) :=
  ⟨⟨by simp [KeysNodup, sampleState], rfl⟩, rfl,
    privateChat_forward_and_echo calculateDistance sampleState 1
      ⟨0, ⟨"u", "n", none, "a", none, none⟩⟩ "v" (some "hi") ⟨5, 5, "", "", 0⟩
      ⟨by simp [KeysNodup, sampleState], rfl⟩ rfl⟩

/-- C9: for a connection without a session (`socketUser` has no entry for it),
each of `position`, `publicChat`, `chatroomMsg`, `privateChat`, `publishBubble`,
`queryBubbles` and `close` returns without any call on any connection and
leaves the three registry maps, the bubble store and `stats` as they were. -/
theorem no_session_event_is_noop {α : Type} [LinearOrderedField α] [FloorRing α]
    (calcDist : α → α → α → α → α) (s : State α) (ws : Conn) (data : Event α) (env : Env α)
    (hd : data.needsSession = true) (hn : JSMap.get s.socketUser ws = none) :
    ∃ s1, handle calcDist s ws data env = some (s1, []) ∧
      s1.onlineUsers = s.onlineUsers ∧ s1.socketUser = s.socketUser ∧
      s1.userSocket = s.userSocket ∧ s1.bubbles = s.bubbles ∧ s1.stats = s.stats := by
  cases data with
  | position lat lng => exact ⟨s, by simp only [handle, hn], rfl, rfl, rfl, rfl, rfl⟩
  | publicChat msg => exact ⟨s, by simp only [handle, hn], rfl, rfl, rfl, rfl, rfl⟩
  | chatroomMsg msg roomCode => exact ⟨s, by simp only [handle, hn], rfl, rfl, rfl, rfl, rfl⟩
  | privateChat toId msg => exact ⟨s, by simp only [handle, hn], rfl, rfl, rfl, rfl, rfl⟩
  | publishBubble bubbleType roomCode title content lat lng activityTags duration =>
    exact ⟨s, by simp only [handle, hn], rfl, rfl, rfl, rfl, rfl⟩
  | queryBubbles lat lng radius => exact ⟨s, by simp only [handle, hn], rfl, rfl, rfl, rfl, rfl⟩
  | close =>
    exact ⟨{ s with notOpen := ws :: s.notOpen }, by simp only [handle, hn], rfl, rfl, rfl, rfl,
      rfl⟩
  | _ => simp [Event.needsSession] at hd

/-- C9 (witness): a `publishBubble` from connection 3, which has no session in
`sampleState`. -/
theorem no_session_event_is_noop_witness :
    (Event.publishBubble none none (some "t") none (some 0) (some 0) none none :
      Event ℝ).needsSession = true ∧
    JSMap.get (sampleState : State ℝ).socketUser 3 = none ∧
    ∃ s1, handle calculateDistance (sampleState : State ℝ) 3
        (Event.publishBubble none none (some "t") none (some 0) (some 0) none none)
        ⟨0, 0, "", "x", 0⟩ = some (s1, []) ∧
      s1.onlineUsers = (sampleState : State ℝ).onlineUsers ∧
      s1.socketUser = (sampleState : State ℝ).socketUser ∧
      s1.userSocket = (sampleState : State ℝ).userSocket ∧
      s1.bubbles = (sampleState : State ℝ).bubbles ∧
      s1.stats = (sampleState : State ℝ).stats :=
  ⟨rfl, rfl, no_session_event_is_noop calculateDistance sampleState 3 _ _ rfl rfl⟩

/-- C10: an `adminCommand` whose password is not `ADMIN_PASSWORD` makes, whatever
its command, exactly one call: it sends the sender one `adminResponse` with
`success = false`; the state (bubble store and `stats` included) is unchanged. -/
theorem adminCommand_wrong_password {α : Type} [LinearOrderedField α] [FloorRing α]
    (calcDist : α → α → α → α → α) (s : State α) (ws : Conn) (password command : Option String)
    (env : Env α) (hp : password ≠ some ADMIN_PASSWORD) :
    handle calcDist s ws (Event.adminCommand password command) env =
      some (s, [Effect.send ws (Frame.adminResponse false "管理员密码错误" none none)]) := by
  simp only [handle, adminCommand, if_pos hp]

/-- C10 (witness): `clearBubbles` with the password `wrong` in `sampleState`. -/
theorem adminCommand_wrong_password_witness :
    some "wrong" ≠ some ADMIN_PASSWORD ∧
    handle calculateDistance (sampleState : State ℝ) 1
        (Event.adminCommand (some "wrong") (some "clearBubbles")) ⟨0, 0, "", "", 0⟩ =
      some (sampleState, [Effect.send 1 (Frame.adminResponse false "管理员密码错误" none none)]) :=
  ⟨by decide, adminCommand_wrong_password calculateDistance sampleState 1 (some "wrong")
    (some "clearBubbles") ⟨0, 0, "", "", 0⟩ (by decide)⟩


/-! ## `calculateDistance` over the reals -/

/-- The quantity `a` of `calculateDistance`. -/
theorem calculateDistance_eq (lat1 lng1 lat2 lng2 : ℝ) :
    calculateDistance lat1 lng1 lat2 lng2 =
      6371000 * (2 * atan2
        (Real.sqrt (Real.sin ((lat2 - lat1) * Real.pi / 180 / 2) ^ 2 +
          Real.cos (lat1 * Real.pi / 180) * Real.cos (lat2 * Real.pi / 180) *
            Real.sin ((lng2 - lng1) * Real.pi / 180 / 2) ^ 2))
        (Real.sqrt (1 - (Real.sin ((lat2 - lat1) * Real.pi / 180 / 2) ^ 2 +
          Real.cos (lat1 * Real.pi / 180) * Real.cos (lat2 * Real.pi / 180) *
            Real.sin ((lng2 - lng1) * Real.pi / 180 / 2) ^ 2)))) := by
  simp only [calculateDistance]
  congr 3
  · congr 1; ring
  · congr 2; ring

theorem sin_half_swap (x y : ℝ) :
    Real.sin ((x - y) * Real.pi / 180 / 2) ^ 2 = Real.sin ((y - x) * Real.pi / 180 / 2) ^ 2 := by
  have h : (x - y) * Real.pi / 180 / 2 = -((y - x) * Real.pi / 180 / 2) := by ring
  rw [h, Real.sin_neg, neg_sq]

/-- C13: read over the reals, `calculateDistance` is 0 from a point to itself
and takes the same value when the two points are exchanged. -/
theorem calculateDistance_self_and_symm :
    (∀ lat lng : ℝ, calculateDistance lat lng lat lng = 0) ∧
    ∀ lat1 lng1 lat2 lng2 : ℝ,
      calculateDistance lat1 lng1 lat2 lng2 = calculateDistance lat2 lng2 lat1 lng1 := by
  refine ⟨calculateDistance_same, fun lat1 lng1 lat2 lng2 => ?_⟩
  rw [calculateDistance_eq, calculateDistance_eq, sin_half_swap lat2 lat1,
    sin_half_swap lng2 lng1, mul_comm (Real.cos (lat1 * Real.pi / 180))]


theorem atan2_eq_zero {y x : ℝ} (hy : 0 ≤ y) (hx : 0 ≤ x) : atan2 y x = 0 ↔ y = 0 := by
  unfold atan2
  by_cases h1 : 0 < x
  · rw [if_pos h1, Real.arctan_eq_zero_iff, div_eq_zero_iff]
    constructor
    · rintro (h | h)
      · exact h
      · exact absurd h h1.ne'
    · exact fun h => Or.inl h
  · rw [if_neg h1, if_neg (not_lt.2 hx)]
    by_cases h3 : 0 < y
    · have hpi := Real.pi_pos
      rw [if_pos h3]
      constructor
      · intro h; linarith
      · intro h; linarith
    · rw [if_neg h3, if_neg (not_lt.2 hy)]
      constructor
      · intro _; exact le_antisymm (not_lt.1 h3) hy
      · intro _; rfl

theorem scaled_eq_zero (t : ℝ) : 6371000 * (2 * t) = 0 ↔ t = 0 := by
  constructor <;> intro h <;> linarith

/-- The distance is 0 exactly when the quantity `a` of the formula is not
positive. -/
theorem calculateDistance_eq_zero_iff (lat1 lng1 lat2 lng2 : ℝ) :
    calculateDistance lat1 lng1 lat2 lng2 = 0 ↔
      Real.sin ((lat2 - lat1) * Real.pi / 180 / 2) ^ 2 +
        Real.cos (lat1 * Real.pi / 180) * Real.cos (lat2 * Real.pi / 180) *
          Real.sin ((lng2 - lng1) * Real.pi / 180 / 2) ^ 2 ≤ 0 := by
  rw [calculateDistance_eq, scaled_eq_zero,
    atan2_eq_zero (Real.sqrt_nonneg _) (Real.sqrt_nonneg _), Real.sqrt_eq_zero']

/-- C14 (counterexample): two coordinate pairs at the north pole, with
longitudes 0 and 50, and the pairs `(0, -180)` and `(0, 180)` on the equator are
each at distance 0 although the coordinates differ. -/
theorem calculateDistance_zero_of_distinct :
    calculateDistance 90 0 90 50 = 0 ∧ ((90 : ℝ), (0 : ℝ)) ≠ (90, 50) ∧
    calculateDistance 0 (-180) 0 180 = 0 ∧ ((0 : ℝ), (-180 : ℝ)) ≠ (0, 180) ∧
    ¬ ∀ lat1 lng1 lat2 lng2 : ℝ,
      calculateDistance lat1 lng1 lat2 lng2 = 0 ↔ lat1 = lat2 ∧ lng1 = lng2 := by
  have hpole : calculateDistance 90 0 90 50 = 0 := by
    rw [calculateDistance_eq_zero_iff]
    have h : (90 : ℝ) * Real.pi / 180 = Real.pi / 2 := by ring
    rw [h, Real.cos_pi_div_two]
    simp
  have hanti : calculateDistance 0 (-180) 0 180 = 0 := by
    rw [calculateDistance_eq_zero_iff]
    have h : ((180 : ℝ) - -180) * Real.pi / 180 / 2 = Real.pi := by ring
    rw [h, Real.sin_pi]
    simp
  refine ⟨hpole, by norm_num, hanti, by norm_num, fun hall => ?_⟩
  have := ((hall 90 0 90 50).1 hpole).2
  norm_num at this

/-- C14 (amended): read over the reals, for latitudes strictly between -90 and
90 and longitudes less than 360 apart, `calculateDistance` is 0 if and only if
the two latitudes are equal and the two longitudes are equal. -/
theorem calculateDistance_eq_zero_iff_same (lat1 lng1 lat2 lng2 : ℝ)
    (h1 : -90 < lat1 ∧ lat1 < 90) (h2 : -90 < lat2 ∧ lat2 < 90)
    (hl : |lng2 - lng1| < 360) :
    calculateDistance lat1 lng1 lat2 lng2 = 0 ↔ lat1 = lat2 ∧ lng1 = lng2 := by
  have hpi := Real.pi_pos
  constructor
  · intro h
    rw [calculateDistance_eq_zero_iff] at h
    have hc1 : 0 < Real.cos (lat1 * Real.pi / 180) :=
      Real.cos_pos_of_mem_Ioo ⟨by nlinarith [h1.1], by nlinarith [h1.2]⟩
    have hc2 : 0 < Real.cos (lat2 * Real.pi / 180) :=
      Real.cos_pos_of_mem_Ioo ⟨by nlinarith [h2.1], by nlinarith [h2.2]⟩
    have hs := sq_nonneg (Real.sin ((lat2 - lat1) * Real.pi / 180 / 2))
    have ht := sq_nonneg (Real.sin ((lng2 - lng1) * Real.pi / 180 / 2))
    have hcc := mul_pos hc1 hc2
    have hprod := mul_nonneg hcc.le ht
    have hs0 : Real.sin ((lat2 - lat1) * Real.pi / 180 / 2) ^ 2 = 0 := by linarith
    have ht0 : Real.sin ((lng2 - lng1) * Real.pi / 180 / 2) ^ 2 = 0 := by
      have : Real.cos (lat1 * Real.pi / 180) * Real.cos (lat2 * Real.pi / 180) *
          Real.sin ((lng2 - lng1) * Real.pi / 180 / 2) ^ 2 = 0 := by linarith
      rcases mul_eq_zero.1 this with h | h
      · exact absurd h hcc.ne'
      · exact h
    have hs1 := pow_eq_zero_iff (two_ne_zero) |>.1 hs0
    have ht1 := pow_eq_zero_iff (two_ne_zero) |>.1 ht0
    obtain ⟨hl1, hl2⟩ := abs_lt.1 hl
    have hlat : (lat2 - lat1) * Real.pi / 180 / 2 = 0 :=
      (Real.sin_eq_zero_iff_of_lt_of_lt (by nlinarith [h1.1, h1.2, h2.1, h2.2])
        (by nlinarith [h1.1, h1.2, h2.1, h2.2])).1 hs1
    have hlng : (lng2 - lng1) * Real.pi / 180 / 2 = 0 :=
      (Real.sin_eq_zero_iff_of_lt_of_lt (by nlinarith) (by nlinarith)).1 ht1
    constructor
    · have : (lat2 - lat1) * Real.pi = 0 := by linarith
      rcases mul_eq_zero.1 this with h | h
      · linarith
      · exact absurd h hpi.ne'
    · have : (lng2 - lng1) * Real.pi = 0 := by linarith
      rcases mul_eq_zero.1 this with h | h
      · linarith
      · exact absurd h hpi.ne'
  · rintro ⟨rfl, rfl⟩
    exact calculateDistance_same _ _

/-- C14 (witness): the origin and the point at latitude 0.0001 on the prime
meridian. -/
theorem calculateDistance_eq_zero_iff_same_witness :
    ((-90 : ℝ) < 0 ∧ (0 : ℝ) < 90) ∧ ((-90 : ℝ) < 1 / 10000 ∧ (1 / 10000 : ℝ) < 90) ∧
    |(0 : ℝ) - 0| < 360 ∧
    (calculateDistance 0 0 (1 / 10000) 0 = 0 ↔ (0 : ℝ) = 1 / 10000 ∧ (0 : ℝ) = 0) :=
  ⟨by norm_num, by norm_num, by norm_num,
    calculateDistance_eq_zero_iff_same 0 0 (1 / 10000) 0 (by norm_num) (by norm_num)
      (by norm_num)⟩


/-! ## The sweep of expired bubbles -/

section Sweep

variable {α : Type} [LinearOrderedField α] [FloorRing α]

/-- The loop of the sweep, started on a map `m` with a count `n` and run over
the entries `l`: it deletes from `m` the keys of the entries of `l` with
`expiresAt < now` and adds their number to `n`. -/
theorem sweep_foldl (now : α) (l : List (String × Bubble α)) :
    ∀ (m : List (String × Bubble α)) (n : Nat),
      l.foldl
        (fun (acc : List (String × Bubble α) × Nat) e =>
          if e.2.expiresAt < now then (JSMap.delete acc.1 e.1, acc.2 + 1) else acc)
        (m, n) =
      (m.filter (fun x => decide
          (x.1 ∉ (l.filter (fun e => decide (e.2.expiresAt < now))).map Prod.fst)),
        n + (l.filter (fun e => decide (e.2.expiresAt < now))).length) := by
  induction l with
  | nil => intro m n; simp
  | cons e t ih =>
    intro m n
    rw [List.foldl_cons]
    by_cases he : e.2.expiresAt < now
    · rw [if_pos he, ih]
      simp only [JSMap.delete, List.filter_filter, List.filter_cons, he, decide_True, if_true,
        List.map_cons, List.mem_cons, not_or, List.length_cons]
      refine Prod.ext ?_ ?_
      · apply List.filter_congr
        intro x _
        simp only [Bool.decide_and, ne_eq, decide_not]
        exact Bool.and_comm _ _
      · show n + 1 + _ = n + (_ + 1)
        omega
    · rw [if_neg he, ih]
      simp only [List.filter_cons, he, decide_False, Bool.false_eq_true, if_false]

/-- What the sweep does on a store with distinct keys: it removes exactly the
bubbles with `expiresAt < now`, keeps the others as they are and in their
order, and `deleted` is the number of bubbles removed. -/
theorem sweepExpired_spec (s : State α) (now : α) (hk : KeysNodup s.bubbles) :
    (sweepExpired s now).1.bubbles =
        s.bubbles.filter (fun e => decide (¬ e.2.expiresAt < now)) ∧
      (sweepExpired s now).2 =
        (s.bubbles.filter (fun e => decide (e.2.expiresAt < now))).length ∧
      (sweepExpired s now).2 + (sweepExpired s now).1.bubbles.length = s.bubbles.length := by
  have h := sweep_foldl now s.bubbles s.bubbles 0
  have hb : (sweepExpired s now).1.bubbles =
      s.bubbles.filter (fun e => decide (¬ e.2.expiresAt < now)) := by
    show (List.foldl _ (s.bubbles, 0) s.bubbles).1 = _
    rw [h]
    apply List.filter_congr
    intro x hx
    have hiff : x.1 ∈ (s.bubbles.filter (fun e => decide (e.2.expiresAt < now))).map Prod.fst ↔
        x.2.expiresAt < now := by
      constructor
      · intro hm
        obtain ⟨y, hy, hxy⟩ := List.mem_map.1 hm
        obtain ⟨hy1, hy2⟩ := List.mem_filter.1 hy
        have : y = x := List.inj_on_of_nodup_map hk hy1 hx hxy
        rw [← this]
        simpa using hy2
      · intro hlt
        exact List.mem_map.2 ⟨x, List.mem_filter.2 ⟨hx, by simpa using hlt⟩, rfl⟩
    simp only [hiff]
  have hc : (sweepExpired s now).2 =
      (s.bubbles.filter (fun e => decide (e.2.expiresAt < now))).length := by
    show (List.foldl _ (s.bubbles, 0) s.bubbles).2 = _
    rw [h]
    simp
  refine ⟨hb, hc, ?_⟩
  rw [hb, hc]
  have := List.length_eq_countP_add_countP (fun e : String × Bubble α => decide (e.2.expiresAt < now))
    s.bubbles
  simp only [List.countP_eq_length_filter] at this
  rw [this]
  congr 2
  apply List.filter_congr
  intro x _
  simp

end Sweep

/-- C11 (the code at the failing input): a bubble published at time 0 with
`duration: 1` has `expiresAt = 1000`; the sweep run at `now = 1000 = expiresAt`
keeps it and counts no deletion. -/
theorem sweep_keeps_bubble_at_expiry :
    ∃ s effs, run calculateDistance (State.init : State ℝ) expiryScenario = some (s, effs) ∧
      s.bubbles = [("b1", expiryBubble)] ∧
      (expiryBubble : Bubble ℝ).expiresAt = 1000 ∧
      (sweepExpired s 1000).1.bubbles = [("b1", expiryBubble)] ∧
      (sweepExpired s 1000).2 = 0 := by
  simp [run, step, handle, expiryScenario, State.init, installSession, JSMap.get, JSMap.set,
    broadcast, isOpen, strOr, numOr, sweepExpired, expiryBubble]


/-- C12 (counterexample): after a login on connection 1, a `publishBubble`
without `lat` is not rejected: the bubble is put in the store with `lat`
missing, a `newBubble` frame is broadcast and the sender gets `publishSuccess`. -/
theorem publishBubble_without_lat_is_stored :
    ∃ s effs s1 bubble,
      run calculateDistance (State.init : State ℝ)
        [(Input.ws 1 (Event.login (some "u") (some "n") none (some "a")), ⟨0, 0, "", "", 0⟩)]
        = some (s, effs) ∧
      s.bubbles = [] ∧
      handle calculateDistance s 1
        (Event.publishBubble none none (some "t") none none (some 0) none none)
        ⟨0, 0, "", "x", 0⟩ =
        some (s1, [Effect.send 1 (Frame.newBubble bubble),
          Effect.send 1 (Frame.publishSuccess "x")]) ∧
      s1.bubbles = [("x", bubble)] ∧ bubble.lat = none :=
  ⟨_, _, _, _, rfl, rfl, rfl, rfl, rfl⟩

/-- C12 (amended): a `publishBubble` from a connection with a session in which
`lat` or `lng` is missing is handled like any other: the bubble is stored under
its new id with the coordinate missing, `totalPublished` grows by one, the calls
made are the broadcast of one `newBubble` frame carrying the bubble followed by
`publishSuccess` to the sender (so no error reply is sent), and no
`queryBubbles` ever picks this bubble. -/
theorem publishBubble_missing_coordinate_accepted {α : Type} [LinearOrderedField α]
    [FloorRing α] (calcDist : α → α → α → α → α) (s : State α) (ws : Conn) (user : UserObj α)
    (bubbleType roomCode title content : Option String) (lat lng : Option α)
    (activityTags : Option (List String)) (duration : Option α) (env : Env α)
    (hu : JSMap.get s.socketUser ws = some user) (hmiss : lat = none ∨ lng = none) :
    ∃ s1 bubble,
      handle calcDist s ws
        (Event.publishBubble bubbleType roomCode title content lat lng activityTags duration)
        env =
        some (s1, broadcast s1 (Frame.newBubble bubble) ++
          [Effect.send ws (Frame.publishSuccess bubble.id)]) ∧
      bubble.id = env.randId ∧ bubble.lat = lat ∧ bubble.lng = lng ∧
      s1.bubbles = JSMap.set s.bubbles bubble.id bubble ∧
      JSMap.get s1.bubbles bubble.id = some bubble ∧
      s1.stats.totalPublished = s.stats.totalPublished + 1 ∧
      s1.onlineUsers = s.onlineUsers ∧ s1.notOpen = s.notOpen ∧
      ∀ qlat qlng radius now,
        queryHit calcDist qlat qlng radius now (bubble.id, bubble) = none := by
  refine ⟨?s1, ?b, ?h, ?_, ?_, ?_, ?_, ?_, ?_, ?_, ?_, ?_⟩
  case h => simp only [handle, hu]; exact rfl
  · rfl
  · rfl
  · rfl
  · rfl
  · exact JSMap.get_set_self _ _ _
  · rfl
  · rfl
  · rfl
  intro qlat qlng radius now
  have hd : ∀ b1 b2 : Option α, (b1 = none ∨ b2 = none) →
      jsDistance calcDist qlat qlng b1 b2 = none := by
    intro b1 b2 h
    rcases h with rfl | rfl
    · cases qlat <;> cases qlng <;> rfl
    · cases qlat <;> cases qlng <;> cases b1 <;> rfl
  simp only [queryHit, hd lat lng hmiss]
  split <;> rfl

/-- C12 (witness): in `sampleState`, user `u` on connection 1 publishes a bubble
without `lng`. -/
theorem publishBubble_missing_coordinate_accepted_witness :
    JSMap.get (sampleState : State ℝ).socketUser 1
      = some ⟨0, ⟨"u", "n", none, "a", none, none⟩⟩ ∧
    ((some 0 : Option ℝ) = none ∨ (none : Option ℝ) = none) ∧
    ∃ s1 bubble,
      handle calculateDistance (sampleState : State ℝ) 1
        (Event.publishBubble none none (some "t") none (some 0) none none none)
        ⟨0, 0, "", "x", 0⟩ =
        some (s1, broadcast s1 (Frame.newBubble bubble) ++
          [Effect.send 1 (Frame.publishSuccess bubble.id)]) ∧
      bubble.id = "x" ∧ bubble.lat = some 0 ∧ bubble.lng = none ∧
      s1.bubbles = JSMap.set (sampleState : State ℝ).bubbles bubble.id bubble ∧
      JSMap.get s1.bubbles bubble.id = some bubble ∧
      s1.stats.totalPublished = (sampleState : State ℝ).stats.totalPublished + 1 ∧
      s1.onlineUsers = (sampleState : State ℝ).onlineUsers ∧
      s1.notOpen = (sampleState : State ℝ).notOpen ∧
      ∀ qlat qlng radius now,
        queryHit calculateDistance qlat qlng radius now (bubble.id, bubble) = none :=
  ⟨rfl, Or.inr rfl,
    publishBubble_missing_coordinate_accepted calculateDistance sampleState 1 _ none none
      (some "t") none (some 0) none none none ⟨0, 0, "", "x", 0⟩ rfl (Or.inr rfl)⟩

/-- C15 (the code at the failing input): `w` is online on connection 3 and `u`
has logged in on connection 1 and then on connection 2, so the registry binds
`u` to connection 2.  The `close` event of the superseded connection 1 deletes
the session of `u` from `onlineUsers` and `userSocket` and broadcasts a
`userLeft` frame for `u`, which reaches connection 3. -/
theorem close_of_superseded_removes_new_session :
    ∃ s effs s1 effs1,
      run calculateDistance (State.init : State ℝ) supersededScenario = some (s, effs) ∧
      (JSMap.get s.onlineUsers "u").map (fun x => x.ws) = some 2 ∧
      JSMap.get s.userSocket "u" = some 2 ∧
      handle calculateDistance s 1 Event.close ⟨0, 0, "", "", 0⟩ = some (s1, effs1) ∧
      JSMap.get s1.onlineUsers "u" = none ∧
      JSMap.get s1.userSocket "u" = none ∧
      (JSMap.get s1.socketUser 2).map (fun x => x.val.id) = some "u" ∧
      effs1 = [Effect.send 3 (Frame.onlineCount 1), Effect.send 3 (Frame.userLeft "u" "n")] :=
  ⟨_, _, _, _, rfl, rfl, rfl, rfl, rfl, rfl, rfl, rfl⟩

end MomentMap
